import Mathlib

/-!
# lokifyFirmware: door controller runtime (`src/main.cpp`)

A shallow embedding of the cooperative runtime of the firmware.  Global
variables and the two function-local statics of `connectWiFiNonBlocking`
become the fields of `State`; every function becomes a pure function from a
state and the values it reads from its surroundings (clock readings of
`millis()`, reader results, link status, HTTP answers) to the next state.
Outbound actions (bus publishes, `WiFi.begin`, HTTP requests, serial lines,
`ESP.restart`) are appended to logs kept in the state.

`unsigned long` is 32 bits wide on the ESP32, so differences of clock values
are taken modulo `2 ^ 32` (`subUL`).  Drawing calls on the TFT are output only
and are left out, except the status line written by `updateRFIDStatus`.
-/

namespace Lokify

/-! ## Machine arithmetic -/

/-- Number of values of an `unsigned long` (32 bits). -/
def UL : Nat := 2 ^ 32

/-- The difference `a - b` of two `unsigned long` values. -/
def subUL (a b : Nat) : Nat := (a % UL + (UL - b % UL)) % UL

/-! ## Constants of the sketch -/

/-- Line 11. -/
def currentFirmwareVersion : String := "1.0.14"

/-- Line 14. -/
def deviceID : String := "lock_01"

/-- Line 21. -/
def mqttTopic : String := "farmlab/door"

/-- Line 31. -/
def mqttInterval : Nat := 500

/-- Line 34. -/
def heartbeatInterval : Nat := 5000

/-- Line 39. -/
def pulseDuration : Nat := 100

/-- Line 49. -/
def cardTimeout : Nat := 1000

/-- Line 55. -/
def rfidInterval : Nat := 200

/-- Lines 50-52. -/
def allowedUIDs : List String := ["93:9B:D7:AA", "20:15:B8:4F", "D3:C6:F6:99"]

/-- Line 72. -/
def otaJsonURL : String := "http://adro.ddns.net/lokifyFirmware/manifest.json"

/-- Line 73. -/
def otaBaseURL : String := "http://adro.ddns.net/lokifyFirmware/"

/-- Line 75. -/
def otaInterval : Nat := 10000

/-- Line 153. -/
def maxFailCount : Int := 10

/-! ## Data model -/

/-- Level written to a digital output.  The relay on `RELAY1` is energized by `LOW`. -/
inductive PinLevel where
  | LOW
  | HIGH
  deriving DecidableEq, Repr

/-- Line 76. -/
inductive OTAStatus where
  | OTA_IDLE
  | OTA_CHECKING
  | OTA_UPDATING
  | OTA_ERROR
  deriving DecidableEq, Repr

/-- The JSON document built by `publishDoorEvent` (lines 233-240). -/
structure DoorEvent where
  device_id : String
  type : String
  event : String
  status : String
  uid : String
  timestamp : Nat
  source : String
  deriving DecidableEq, Repr

/-- The JSON document built by `publishHeartbeat` (lines 208-221). -/
structure Heartbeat where
  device_id : String
  type : String
  wifi : Bool
  mqtt : Bool
  ota : String
  fw_version : String
  timestamp : Nat
  source : String
  deriving DecidableEq, Repr

/-- A line printed on the serial port. -/
inductive SerialLine where
  | messageArrived (message : String)
  | mqttEvent (e : DoorEvent)
  | startingOTA (url : String)
  | otaWritten (written : Nat)
  | otaComplete
  deriving DecidableEq, Repr

/-- The globals of the sketch, the statics of `connectWiFiNonBlocking`, and the logs of
outbound actions. -/
structure State where
  wifiConnected : Bool
  mqttConnected : Bool
  lastMqttAttempt : Nat
  lastHeartbeat : Nat
  /-- Level last written to `RELAY1`. -/
  relay1 : PinLevel
  pulseActive : Bool
  pulseStartTime : Nat
  lastRFIDUID : String
  lastCardReadTime : Nat
  lastRFIDCheck : Nat
  lastOTACheck : Nat
  otaStatus : OTAStatus
  /-- Static local of `connectWiFiNonBlocking`. -/
  lastWiFiCheck : Nat
  /-- Static local of `connectWiFiNonBlocking` (an `int`). -/
  failCount : Int
  /-- Text last passed to `updateRFIDStatus`. -/
  rfidStatus : String
  /-- Door events handed to `mqttClient.publish` on `mqttTopic`, oldest first. -/
  published : List DoorEvent
  /-- Number of calls of `WiFi.begin` so far. -/
  wifiBegins : Nat
  /-- URLs requested with `HTTPClient::GET`, oldest first. -/
  httpGets : List String
  /-- Lines printed on the serial port, oldest first. -/
  serial : List SerialLine
  /-- Set by `ESP.restart()`. -/
  restarted : Bool
  /-- Heartbeats handed to `mqttClient.publish` on `farmlab/esp32/heartbeat`, oldest first. -/
  heartbeats : List Heartbeat
  deriving DecidableEq, Repr

/-- The values of the globals at power-on (lines 28-77 and 151-152); `pin` is the level of
the relay pin before `setup` has driven it. -/
def powerOn (pin : PinLevel) : State :=
  { wifiConnected := false
    mqttConnected := false
    lastMqttAttempt := 0
    lastHeartbeat := 0
    relay1 := pin
    pulseActive := false
    pulseStartTime := 0
    lastRFIDUID := ""
    lastCardReadTime := 0
    lastRFIDCheck := 0
    lastOTACheck := 0
    otaStatus := OTAStatus.OTA_ERROR
    lastWiFiCheck := 0
    failCount := 0
    rfidStatus := ""
    published := []
    wifiBegins := 0
    httpGets := []
    serial := []
    restarted := false
    heartbeats := [] }

/-- Lines 329-334. -/
def updateRFIDStatus (s : State) (status : String) : State :=
  { s with rfidStatus := status }

/-- Lines 92-120: the relay pin is driven `HIGH`, the status line shows "Ready". -/
def setup (s : State) : State :=
  updateRFIDStatus { s with relay1 := PinLevel.HIGH } "Ready"

/-- Lines 230-246.  `connected` is the value of `mqttClient.connected()`, `ts` the reading
of `millis()` on line 239. -/
def publishDoorEvent (s : State) (connected : Bool) (ts : Nat)
    (uid eventType status : String) : State :=
  if !connected then s
  else
    let doc : DoorEvent :=
      { device_id := deviceID, type := "event", event := eventType, status := status,
        uid := uid, timestamp := ts, source := "local" }
    { s with published := s.published ++ [doc], serial := s.serial ++ [SerialLine.mqttEvent doc] }

/-! ## Badge reader -/

/-- The Arduino conversion `String(b, HEX)`: the digits of `b` in base 16, lowercase, without
padding. -/
def hexString (b : Nat) : List Char := Nat.toDigits 16 b

/-- The Arduino call `String::toUpperCase`. -/
def toUpperCase (cs : List Char) : List Char := cs.map Char.toUpper

/-- Body of the loop of lines 284-288 at index `i` with byte `b`. -/
def uidAppend (uidString : List Char) (i b : Nat) : List Char :=
  let s1 := if i > 0 then uidString ++ [':'] else uidString
  let s2 := if b < 0x10 then s1 ++ ['0'] else s1
  s2 ++ hexString b

/-- The loop of lines 284-288 over the remaining bytes, starting at index `i`. -/
def uidLoop : List Nat → Nat → List Char → List Char
  | [], _, uidString => uidString
  | b :: rest, i, uidString => uidLoop rest (i + 1) (uidAppend uidString i b)

/-- Lines 283-289: the string built from the bytes of the card serial. -/
def uidString (uidByte : List Nat) : String :=
  String.mk (toUpperCase (uidLoop uidByte 0 []))

/-- Line 297: the scan of the allow-list. -/
def scanAllowed (uid : String) (list : List String) : Bool :=
  list.foldl (fun allowed entry => if uid = entry then true else allowed) false

/-- What one call of `handleRFID` reads from its surroundings. -/
structure RfidInput where
  /-- Result of `PICC_IsNewCardPresent()`. -/
  cardPresent : Bool
  /-- Result of `PICC_ReadCardSerial()`. -/
  readSerial : Bool
  /-- The bytes `uid.uidByte[0 .. uid.size - 1]`. -/
  uidByte : List Nat
  /-- Reading of `millis()` on line 291. -/
  now : Nat
  /-- Reading of `millis()` on line 302. -/
  pulseMillis : Nat
  /-- Reading of `millis()` inside `publishDoorEvent`. -/
  eventMillis : Nat
  /-- Value of `mqttClient.connected()` inside `publishDoorEvent`. -/
  busConnected : Bool
  deriving DecidableEq, Repr

/-- Line 292: the test that lets a read through. -/
def passesDebounce (s : State) (uid : String) (now : Nat) : Bool :=
  uid != s.lastRFIDUID || decide (subUL now s.lastCardReadTime > cardTimeout)

/-- Lines 279-318. -/
def handleRFID (s : State) (r : RfidInput) : State :=
  if !r.cardPresent then s
  else if !r.readSerial then s
  else
    let uid := uidString r.uidByte
    if passesDebounce s uid r.now then
      let s1 := { s with lastRFIDUID := uid, lastCardReadTime := r.now }
      let allowed := scanAllowed uid allowedUIDs
      if allowed then
        let s2 := updateRFIDStatus s1 "Access Granted"
        let s3 := { s2 with relay1 := PinLevel.LOW }
        let s4 := { s3 with pulseStartTime := r.pulseMillis }
        let s5 := { s4 with pulseActive := true }
        publishDoorEvent s5 r.busConnected r.eventMillis uid "access_granted" "unlocked"
      else
        let s2 := updateRFIDStatus s1 "Access Denied"
        publishDoorEvent s2 r.busConnected r.eventMillis uid "access_denied" "locked"
    else s

/-- Lines 321-326; `now` is the reading of `millis()`. -/
def handleRelayPulse (s : State) (now : Nat) : State :=
  if s.pulseActive && decide (subUL now s.pulseStartTime ≥ pulseDuration) then
    { s with relay1 := PinLevel.HIGH, pulseActive := false }
  else s

/-- Folds `handleRelayPulse` over successive clock readings, oldest first. -/
def pulseRun (s : State) (clock : List Nat) : State :=
  clock.foldl handleRelayPulse s

/-! ## Remote commands -/

/-- The part of the ArduinoJson library the sketch calls.  The library is not part of the
repository, so its parser and accessors are taken as they come. -/
structure JsonLib where
  /-- A filled `DynamicJsonDocument`. -/
  Doc : Type
  /-- The call `deserializeJson(doc, text)` on a document of the given capacity; `none` when
  the call reports an error. -/
  deserializeJson : Nat → String → Option Doc
  /-- The expression `doc[key] | ""`, converted to a `String`. -/
  getOrEmpty : Doc → String → String
  /-- The conversion `String x = doc[key]`. -/
  getString : Doc → String → String

/-- What one call of `mqttCallback` receives and reads. -/
structure MqttInput where
  topic : String
  /-- The bytes `payload[0 .. length - 1]`. -/
  payload : List Nat
  /-- Reading of `millis()` on line 266. -/
  pulseMillis : Nat
  /-- Reading of `millis()` inside `publishDoorEvent`. -/
  eventMillis : Nat
  /-- Value of `mqttClient.connected()` inside `publishDoorEvent`. -/
  busConnected : Bool
  deriving DecidableEq, Repr

/-- Lines 251-252: the payload bytes as a string. -/
def payloadMessage (payload : List Nat) : String :=
  String.mk (payload.map Char.ofNat)

/-- Lines 250-275. -/
def mqttCallback (J : JsonLib) (s : State) (m : MqttInput) : State :=
  let message := payloadMessage m.payload
  let s0 := { s with serial := s.serial ++ [SerialLine.messageArrived message] }
  match J.deserializeJson 256 message with
  | none => s0
  | some doc =>
    let cmdType := J.getOrEmpty doc "type"
    let command := J.getOrEmpty doc "command"
    let target := J.getOrEmpty doc "device_id"
    if cmdType = "command" ∧ target = deviceID then
      if command = "unlock" then
        let s1 := { s0 with relay1 := PinLevel.LOW }
        let s2 := { s1 with pulseStartTime := m.pulseMillis }
        let s3 := { s2 with pulseActive := true }
        publishDoorEvent s3 m.busConnected m.eventMillis "" "remote_unlock" "unlocked"
      else if command = "lock" then
        let s1 := { s0 with relay1 := PinLevel.HIGH }
        let s2 := { s1 with pulseActive := false }
        publishDoorEvent s2 m.busConnected m.eventMillis "" "remote_lock" "locked"
      else s0
    else s0

/-! ## Wi-Fi link -/

/-- Line 157: `1000 + min(failCount, 10) * 2000`, computed on `int` and stored in an
`unsigned long`. -/
def wifiInterval (failCount : Int) : Nat :=
  ((1000 + min failCount 10 * 2000) % (UL : Int)).toNat

/-- What one call of `connectWiFiNonBlocking` reads. -/
structure WifiInput where
  /-- Reading of `millis()` on line 154. -/
  now : Nat
  /-- Whether `WiFi.status()` is `WL_CONNECTED` on line 161. -/
  statusConnected : Bool
  deriving DecidableEq, Repr

/-- Lines 150-183. -/
def connectWiFiNonBlocking (s : State) (w : WifiInput) : State :=
  let interval := wifiInterval s.failCount
  if subUL w.now s.lastWiFiCheck < interval then s
  else
    let s1 := { s with lastWiFiCheck := w.now }
    if !w.statusConnected then
      if s1.failCount < maxFailCount then
        let s2 := { s1 with wifiBegins := s1.wifiBegins + 1 }
        let s3 := { s2 with wifiConnected := false }
        { s3 with failCount := s3.failCount + 1 }
      else s1
    else if !s1.wifiConnected then
      let s2 := { s1 with wifiConnected := true }
      let s3 := { s2 with failCount := 0 }
      { s3 with otaStatus := OTAStatus.OTA_IDLE }
    else s1

/-- Folds `connectWiFiNonBlocking` over successive calls, oldest first. -/
def wifiRun (s : State) (calls : List WifiInput) : State :=
  calls.foldl connectWiFiNonBlocking s

/-! ## Firmware update -/

/-- What one call of `checkOTA` reads. -/
structure OtaInput where
  /-- Reading of `millis()` on line 339. -/
  millis1 : Nat
  /-- Reading of `millis()` on line 340. -/
  millis2 : Nat
  /-- Result of `http.GET()` for the manifest. -/
  manifestCode : Int
  /-- Result of `http.getString()`. -/
  manifestBody : String
  /-- Result of `fwHttp.GET()` for the firmware file. -/
  fwCode : Int
  /-- Result of `fwHttp.getSize()`. -/
  contentLength : Int
  /-- Result of `Update.begin(contentLength)`. -/
  updateBegin : Bool
  /-- Result of `Update.writeStream(*stream)`. -/
  written : Nat
  /-- Result of `Update.end()`. -/
  updateEnd : Bool
  /-- Result of `Update.isFinished()`. -/
  isFinished : Bool
  deriving DecidableEq, Repr

/-- How the first part of `checkOTA` (lines 337-358) ends: with a `return`, or by going on
to fetch the firmware file named in the manifest. -/
inductive CheckOutcome where
  | returned (s : State)
  | updating (s : State) (fwFile : String)

/-- The state a check leaves, whichever way it ends. -/
def CheckOutcome.state : CheckOutcome → State
  | CheckOutcome.returned s => s
  | CheckOutcome.updating s _ => s

/-- Lines 337-358. -/
def otaCheck (J : JsonLib) (s : State) (o : OtaInput) : CheckOutcome :=
  if !s.wifiConnected then CheckOutcome.returned s
  else if subUL o.millis1 s.lastOTACheck < otaInterval then CheckOutcome.returned s
  else
    let s1 := { s with lastOTACheck := o.millis2 }
    let s2 := { s1 with otaStatus := OTAStatus.OTA_CHECKING }
    let s3 := { s2 with httpGets := s2.httpGets ++ [otaJsonURL] }
    if o.manifestCode ≠ 200 then
      CheckOutcome.returned { s3 with otaStatus := OTAStatus.OTA_ERROR }
    else
      match J.deserializeJson 512 o.manifestBody with
      | none => CheckOutcome.returned { s3 with otaStatus := OTAStatus.OTA_ERROR }
      | some doc =>
        let newVer := J.getString doc "version"
        let fwFile := J.getString doc "file"
        if newVer = currentFirmwareVersion then
          CheckOutcome.returned { s3 with otaStatus := OTAStatus.OTA_IDLE }
        else
          CheckOutcome.updating { s3 with otaStatus := OTAStatus.OTA_UPDATING } fwFile

/-- Lines 359-384, entered with `otaStatus = OTA_UPDATING`. -/
def otaUpdate (s : State) (fwFile : String) (o : OtaInput) : State :=
  let fwURL := otaBaseURL ++ fwFile
  let s1 := { s with serial := s.serial ++ [SerialLine.startingOTA fwURL] }
  let s2 := { s1 with httpGets := s1.httpGets ++ [fwURL] }
  if o.fwCode ≠ 200 then { s2 with otaStatus := OTAStatus.OTA_ERROR }
  else if !o.updateBegin then { s2 with otaStatus := OTAStatus.OTA_ERROR }
  else
    let s3 :=
      if o.written ≠ (o.contentLength % (UL : Int)).toNat then
        { s2 with serial := s2.serial ++ [SerialLine.otaWritten o.written] }
      else s2
    if o.updateEnd then
      if o.isFinished then
        let s4 := { s3 with serial := s3.serial ++ [SerialLine.otaComplete] }
        let s5 := { s4 with otaStatus := OTAStatus.OTA_IDLE }
        { s5 with restarted := true }
      else { s3 with otaStatus := OTAStatus.OTA_ERROR }
    else { s3 with otaStatus := OTAStatus.OTA_ERROR }

/-- Lines 337-384. -/
def checkOTA (J : JsonLib) (s : State) (o : OtaInput) : State :=
  match otaCheck J s o with
  | CheckOutcome.returned s1 => s1
  | CheckOutcome.updating s1 fwFile => otaUpdate s1 fwFile o

/-! ## Runs of the relay-facing handlers -/

/-- One call of a handler that touches the relay. -/
inductive Call where
  | rfid (r : RfidInput)
  | mqtt (m : MqttInput)
  | relayPulse (now : Nat)

/-- Runs one call. -/
def Call.run (J : JsonLib) (s : State) : Call → State
  | Call.rfid r => handleRFID s r
  | Call.mqtt m => mqttCallback J s m
  | Call.relayPulse now => handleRelayPulse s now

/-- Runs a sequence of calls, oldest first. -/
def runCalls (J : JsonLib) (s : State) (calls : List Call) : State :=
  calls.foldl (Call.run J) s

/-- Splits a text at every occurrence of `sep`. -/
def splitAtChar (sep : Char) : List Char → List (List Char)
  | [] => [[]]
  | c :: cs =>
    if c = sep then [] :: splitAtChar sep cs
    else
      match splitAtChar sep cs with
      | [] => [[c]]
      | w :: ws => (c :: w) :: ws

/-- Reads `k=v` as the field `(k, v)`. -/
def readField (part : List Char) : Option (String × String) :=
  match splitAtChar '=' part with
  | [k, v] => some (String.mk k, String.mk v)
  | _ => none

/-- A stand-in for the JSON library, used to evaluate the handlers on concrete inputs: a
document is a list of fields, and a text of the form `k1=v1;k2=v2` is read as such a list;
a text with a part that is not of the form `k=v` is an error. -/
def fieldsJson : JsonLib :=
  { Doc := List (String × String)
    deserializeJson := fun _ text => (splitAtChar ';' text.data).mapM readField
    getOrEmpty := fun doc key => (doc.lookup key).getD ""
    getString := fun doc key => (doc.lookup key).getD "null" }

/-- The bytes of a text, as they arrive in a payload. -/
def bytesOf (text : String) : List Nat := text.data.map Char.toNat

/-! ## Telemetry, bus session, status indicators and the scheduler pass -/

/-- Lines 213-218: the name of the OTA state in a heartbeat. -/
def otaName : OTAStatus → String
  | OTAStatus.OTA_IDLE => "idle"
  | OTAStatus.OTA_CHECKING => "checking"
  | OTAStatus.OTA_UPDATING => "updating"
  | OTAStatus.OTA_ERROR => "error"

/-- What one call of `publishHeartbeat` reads. -/
structure HeartbeatInput where
  /-- Value of `mqttClient.connected()` on line 206. -/
  busConnected : Bool
  /-- Reading of `millis()` on line 220. -/
  millis : Nat
  deriving DecidableEq, Repr

/-- Lines 208-221: the document built from the state. -/
def heartbeatDoc (s : State) (ts : Nat) : Heartbeat :=
  { device_id := deviceID, type := "heartbeat", wifi := s.wifiConnected,
    mqtt := s.mqttConnected, ota := otaName s.otaStatus,
    fw_version := currentFirmwareVersion, timestamp := ts, source := "local" }

/-- Lines 205-226. -/
def publishHeartbeat (s : State) (h : HeartbeatInput) : State :=
  if !h.busConnected then s
  else { s with heartbeats := s.heartbeats ++ [heartbeatDoc s h.millis] }

/-- What one call of `connectMQTTNonBlocking` reads. -/
structure MqttConnInput where
  /-- Value of `mqttClient.connected()` on line 189. -/
  clientConnected : Bool
  /-- Reading of `millis()` on line 192. -/
  millis1 : Nat
  /-- Reading of `millis()` on line 193. -/
  millis2 : Nat
  /-- Result of `mqttClient.connect(...)` on line 194. -/
  connectResult : Bool
  /-- The messages `mqttClient.loop()` hands to the callback on line 200, in order. -/
  inbound : List MqttInput
  deriving DecidableEq, Repr

/-- Lines 186-202.  The calls `setServer`, `setCallback` and `subscribe` change nothing in
the state; `mqttClient.loop()` runs `mqttCallback` on every message it delivers. -/
def connectMQTTNonBlocking (J : JsonLib) (s : State) (c : MqttConnInput) : State :=
  if !s.wifiConnected then s
  else if !c.clientConnected then
    if subUL c.millis1 s.lastMqttAttempt > mqttInterval then
      let s1 := { s with lastMqttAttempt := c.millis2 }
      if c.connectResult then { s1 with mqttConnected := true }
      else { s1 with mqttConnected := false }
    else s
  else c.inbound.foldl (mqttCallback J) s

/-- Colours of the status dots. -/
inductive Color where
  | GREEN
  | RED
  | YELLOW
  | ORANGE
  deriving DecidableEq, Repr

/-- Lines 393-402: the colour of the OTA dot. -/
def otaColor (s : State) : Color :=
  if !s.wifiConnected then Color.RED
  else
    match s.otaStatus with
    | OTAStatus.OTA_IDLE => Color.GREEN
    | OTAStatus.OTA_CHECKING => Color.YELLOW
    | OTAStatus.OTA_UPDATING => Color.ORANGE
    | OTAStatus.OTA_ERROR => Color.RED

/-- Lines 388-410: besides drawing, line 394 writes `otaStatus = OTA_ERROR` when
`wifiConnected` is false. -/
def drawStatusIndicators (s : State) : State :=
  if !s.wifiConnected then { s with otaStatus := OTAStatus.OTA_ERROR }
  else s

/-- What one pass of `loop` reads. -/
structure LoopInput where
  /-- Reading of `millis()` on line 124. -/
  now : Nat
  rfid : RfidInput
  heartbeat : HeartbeatInput
  /-- Reading of `millis()` inside `handleRelayPulse`. -/
  pulseNow : Nat
  wifi : WifiInput
  mqtt : MqttConnInput
  ota : OtaInput

/-- Lines 123-145.  After `ESP.restart()` inside `checkOTA` nothing more of the pass runs. -/
def loop (J : JsonLib) (s : State) (i : LoopInput) : State :=
  let s1 :=
    if subUL i.now s.lastRFIDCheck ≥ rfidInterval then
      handleRFID { s with lastRFIDCheck := i.now } i.rfid
    else s
  let s2 :=
    if subUL i.now s1.lastHeartbeat ≥ heartbeatInterval then
      publishHeartbeat { s1 with lastHeartbeat := i.now } i.heartbeat
    else s1
  let s3 := handleRelayPulse s2 i.pulseNow
  let s4 := connectWiFiNonBlocking s3 i.wifi
  let s5 := connectMQTTNonBlocking J s4 i.mqtt
  let s6 := checkOTA J s5 i.ota
  if s6.restarted then s6 else drawStatusIndicators s6

/-- One step of the scheduler: a call of one of the functions `loop` calls, one of the two
timer updates of `loop`, or a delivery to `mqttCallback`. -/
inductive SchedStep where
  | rfidDue (now : Nat)
  | rfid (r : RfidInput)
  | heartbeatDue (now : Nat)
  | heartbeat (h : HeartbeatInput)
  | relayPulse (now : Nat)
  | wifi (w : WifiInput)
  | mqttConnect (c : MqttConnInput)
  | callback (m : MqttInput)
  | ota (o : OtaInput)
  | draw

/-- Runs one scheduler step. -/
def SchedStep.run (J : JsonLib) (s : State) : SchedStep → State
  | SchedStep.rfidDue now => { s with lastRFIDCheck := now }
  | SchedStep.rfid r => handleRFID s r
  | SchedStep.heartbeatDue now => { s with lastHeartbeat := now }
  | SchedStep.heartbeat h => publishHeartbeat s h
  | SchedStep.relayPulse now => handleRelayPulse s now
  | SchedStep.wifi w => connectWiFiNonBlocking s w
  | SchedStep.mqttConnect c => connectMQTTNonBlocking J s c
  | SchedStep.callback m => mqttCallback J s m
  | SchedStep.ota o => checkOTA J s o
  | SchedStep.draw => drawStatusIndicators s

/-- Runs a sequence of scheduler steps, oldest first. -/
def runSched (J : JsonLib) (s : State) (steps : List SchedStep) : State :=
  steps.foldl (SchedStep.run J) s

/-- Runs a sequence of passes of `loop`, oldest first. -/
def runLoop (J : JsonLib) (s : State) (passes : List LoopInput) : State :=
  passes.foldl (loop J) s

/-! ## The canonical form of a badge UID, as the specification words it -/

/-- The uppercase hexadecimal digit of value `d`. -/
def upperHexDigit (d : Nat) : Char :=
  if d < 10 then Char.ofNat ('0'.toNat + d) else Char.ofNat ('A'.toNat + (d - 10))

/-- The two-digit uppercase hexadecimal rendering of a byte, zero-padded. -/
def twoDigitUpperHex (b : Nat) : List Char :=
  [upperHexDigit (b / 16), upperHexDigit (b % 16)]

/-- The renderings of the bytes in order, separated by single colons. -/
def canonicalUid (bytes : List Nat) : String :=
  String.mk (List.intercalate [':'] (bytes.map twoDigitUpperHex))

/-- The characters a canonical UID may hold. -/
def uidAlphabet : List Char := "0123456789ABCDEF:".data

/-! ## Concrete inputs -/

/-- The state right after `setup`, the relay pin having floated `LOW` before. -/
def afterSetup : State := setup (powerOn PinLevel.LOW)

/-- A read of the badge `93 9B D7 AA` at 5000 ms while the bus session is down. -/
def grantedRead : RfidInput :=
  { cardPresent := true, readSerial := true, uidByte := [0x93, 0x9B, 0xD7, 0xAA],
    now := 5000, pulseMillis := 5001, eventMillis := 5002, busConnected := false }

/-- The state after `grantedRead` was handled: the debounce record holds the badge and
5000 ms. -/
def afterGrantedRead : State := handleRFID afterSetup grantedRead

/-- The same badge read again exactly 1000 ms after the read recorded in `afterGrantedRead`. -/
def repeatReadAtWindowEnd : RfidInput :=
  { cardPresent := true, readSerial := true, uidByte := [0x93, 0x9B, 0xD7, 0xAA],
    now := 6000, pulseMillis := 6001, eventMillis := 6002, busConnected := true }

/-- The same badge read again 1001 ms after the read recorded in `afterGrantedRead`. -/
def repeatReadPastWindow : RfidInput :=
  { cardPresent := true, readSerial := true, uidByte := [0x93, 0x9B, 0xD7, 0xAA],
    now := 6001, pulseMillis := 6002, eventMillis := 6003, busConnected := true }

/-- The event `handleRFID` publishes for a decided read. -/
def decisionEvent (uid : String) (ts : Nat) : DoorEvent :=
  if uid ∈ allowedUIDs then
    { device_id := deviceID, type := "event", event := "access_granted", status := "unlocked",
      uid := uid, timestamp := ts, source := "local" }
  else
    { device_id := deviceID, type := "event", event := "access_denied", status := "locked",
      uid := uid, timestamp := ts, source := "local" }

/-- The state `s1` is what `handleRFID` leaves when, from `s`, a read passes the debounce
test, is granted, and reads the clock as `t` on line 302. -/
def GrantAt (s : State) (t : Nat) (s1 : State) : Prop :=
  ∃ r : RfidInput, r.cardPresent = true ∧ r.readSerial = true ∧
    passesDebounce s (uidString r.uidByte) r.now = true ∧
    uidString r.uidByte ∈ allowedUIDs ∧ r.pulseMillis = t ∧ s1 = handleRFID s r

/-- The message `m` parses into `doc`. -/
def ParsesTo (J : JsonLib) (m : MqttInput) (doc : J.Doc) : Prop :=
  J.deserializeJson 256 (payloadMessage m.payload) = some doc

/-- The document is a command addressed to this device. -/
def Addressed (J : JsonLib) (doc : J.Doc) : Prop :=
  J.getOrEmpty doc "type" = "command" ∧ J.getOrEmpty doc "device_id" = deviceID

/-- The state `s1` is what `mqttCallback` leaves when, from `s`, an `unlock` command for this
device arrives and the clock reads `t` on line 266. -/
def UnlockAt (J : JsonLib) (s : State) (t : Nat) (s1 : State) : Prop :=
  ∃ (m : MqttInput) (doc : J.Doc), ParsesTo J m doc ∧ Addressed J doc ∧
    J.getOrEmpty doc "command" = "unlock" ∧ m.pulseMillis = t ∧ s1 = mqttCallback J s m

/-- An `unlock` command for this device arriving at 5050 ms. -/
def unlockMessage : MqttInput :=
  { topic := "farmlab/door", payload := bytesOf "type=command;device_id=lock_01;command=unlock",
    pulseMillis := 5050, eventMillis := 5051, busConnected := true }

/-- A `lock` command for this device. -/
def lockMessage : MqttInput :=
  { topic := "farmlab/door", payload := bytesOf "type=command;device_id=lock_01;command=lock",
    pulseMillis := 5060, eventMillis := 5061, busConnected := true }

/-- An `unlock` command for another device. -/
def foreignMessage : MqttInput :=
  { topic := "farmlab/door", payload := bytesOf "type=command;device_id=lock_02;command=unlock",
    pulseMillis := 5070, eventMillis := 5071, busConnected := true }

/-- The state after `unlockMessage` arrived while the pulse of `afterGrantedRead`, started
at 5001 ms, was still active. -/
def afterRetrigger : State := mqttCallback fieldsJson afterGrantedRead unlockMessage

/-- The document `fieldsJson` reads from `unlockMessage`. -/
def unlockDoc : fieldsJson.Doc :=
  [("type", "command"), ("device_id", "lock_01"), ("command", "unlock")]

/-- The document `fieldsJson` reads from `lockMessage`. -/
def lockDoc : fieldsJson.Doc :=
  [("type", "command"), ("device_id", "lock_01"), ("command", "lock")]

/-- The document `fieldsJson` reads from `foreignMessage`. -/
def foreignDoc : fieldsJson.Doc :=
  [("type", "command"), ("device_id", "lock_02"), ("command", "unlock")]

/-- Ten calls of `connectWiFiNonBlocking`, each due and each finding the link down. -/
def tenFailedCalls : List WifiInput :=
  [1000, 4000, 9000, 16000, 25000, 36000, 49000, 64000, 81000, 100000].map
    fun t => { now := t, statusConnected := false }

/-- The state after `tenFailedCalls`: the failure counter stands at 10. -/
def exhausted : State := wifiRun afterSetup tenFailedCalls

/-- The link is found up once the last wait is over, and found down again a little later. -/
def upThenDown : List WifiInput :=
  [{ now := 121000, statusConnected := true }, { now := 150000, statusConnected := false }]

/-- The link is found down at every later call. -/
def staysDown : List WifiInput :=
  [{ now := 121000, statusConnected := false }, { now := 150000, statusConnected := false }]

/-- The state after the link came up at 1000 ms. -/
def linkUp : State := connectWiFiNonBlocking afterSetup { now := 1000, statusConnected := true }

/-- A run of `checkOTA` at 11000 ms whose manifest names version `version` in file `fw.bin`,
and whose firmware fetch is answered with 404. -/
def manifestAnswer (version : String) : OtaInput :=
  { millis1 := 11000, millis2 := 11000, manifestCode := 200,
    manifestBody := "version=" ++ version ++ ";file=fw.bin",
    fwCode := 404, contentLength := 0, updateBegin := false, written := 0,
    updateEnd := false, isFinished := false }

/-- The relay output is energized exactly when a pulse is recorded as active. -/
def RelayMatchesPulse (s : State) : Prop :=
  s.relay1 = PinLevel.LOW ↔ s.pulseActive = true

/-- How one call can move the pair (relay output, `pulseActive`): not at all, to
(energized, active), or to (de-energized, inactive). -/
def RelayStep (s s1 : State) : Prop :=
  (s1.relay1 = s.relay1 ∧ s1.pulseActive = s.pulseActive) ∨
  (s1.relay1 = PinLevel.LOW ∧ s1.pulseActive = true) ∨
  (s1.relay1 = PinLevel.HIGH ∧ s1.pulseActive = false)

/-- The step from `s` to `s1` leaves the failure counter, the OTA state and the heartbeat log
alone. -/
def KeepsLinkAndOta (s s1 : State) : Prop :=
  s1.failCount = s.failCount ∧ s1.otaStatus = s.otaStatus ∧ s1.heartbeats = s.heartbeats

/-- The state after the link, up at 1000 ms, was found down again at 5000 ms: `wifiConnected`
is false while `otaStatus` is still `OTA_IDLE`. -/
def linkDropped : State :=
  connectWiFiNonBlocking linkUp { now := 5000, statusConnected := false }

/-- A heartbeat call at 5000 ms with the bus session up. -/
def heartbeatCall : HeartbeatInput := { busConnected := true, millis := 5000 }

/-- The failure counter lies in `0..10`. -/
def CounterInRange (s : State) : Prop := 0 ≤ s.failCount ∧ s.failCount ≤ 10

/-- A run of the update phase: 1000 bytes declared, `written` bytes written, finalization
succeeds. -/
def fullUpdate (written : Nat) : OtaInput :=
  { millis1 := 11000, millis2 := 11000, manifestCode := 200,
    manifestBody := "version=1.0.15;file=fw.bin",
    fwCode := 200, contentLength := 1000, updateBegin := true, written := written,
    updateEnd := true, isFinished := true }

/-- The OTA state is at rest: `OTA_IDLE` or `OTA_ERROR`. -/
def OtaSettled (s : State) : Prop :=
  s.otaStatus = OTAStatus.OTA_IDLE ∨ s.otaStatus = OTAStatus.OTA_ERROR

/-- Every heartbeat published so far names the OTA state "idle" or "error". -/
def HeartbeatsSettled (s : State) : Prop :=
  ∀ hb ∈ s.heartbeats, hb.ota = "idle" ∨ hb.ota = "error"

/-- One pass of `loop` at 6000 ms right after the link came up: the heartbeat is due and the
bus session is up; `checkOTA` reads the clock as 11000 ms, so the update check is due, the
manifest names "1.0.15" and the firmware fetch is answered with 404. -/
def firstPass : LoopInput :=
  { now := 6000
    rfid := { grantedRead with cardPresent := false }
    heartbeat := { busConnected := true, millis := 6000 }
    pulseNow := 6000
    wifi := { now := 6000, statusConnected := true }
    mqtt := { clientConnected := true, millis1 := 6000, millis2 := 6000,
              connectResult := true, inbound := [] }
    ota := manifestAnswer "1.0.15" }

/-- A state with a pulse started 50 ms before the 32-bit clock wraps. -/
def pulseBeforeWrap : State :=
  { afterSetup with relay1 := PinLevel.LOW, pulseActive := true, pulseStartTime := 4294967246 }

/-! ## Helper lemmas -/

theorem scanAllowed_fold (uid : String) (list : List String) (acc : Bool) :
    list.foldl (fun allowed entry => if uid = entry then true else allowed) acc
      = (acc || decide (uid ∈ list)) := by
  induction list generalizing acc with
  | nil => simp
  | cons e rest ih =>
    rw [List.foldl_cons, ih]
    by_cases h : uid = e
    · simp [h]
    · simp [h]

theorem scanAllowed_iff (uid : String) (list : List String) :
    scanAllowed uid list = true ↔ uid ∈ list := by
  unfold scanAllowed
  rw [scanAllowed_fold]
  simp

theorem publishDoorEvent_relay1 (s : State) (c : Bool) (ts : Nat) (u e st : String) :
    (publishDoorEvent s c ts u e st).relay1 = s.relay1 := by
  unfold publishDoorEvent; cases c <;> rfl

theorem publishDoorEvent_pulseActive (s : State) (c : Bool) (ts : Nat) (u e st : String) :
    (publishDoorEvent s c ts u e st).pulseActive = s.pulseActive := by
  unfold publishDoorEvent; cases c <;> rfl

theorem publishDoorEvent_pulseStartTime (s : State) (c : Bool) (ts : Nat) (u e st : String) :
    (publishDoorEvent s c ts u e st).pulseStartTime = s.pulseStartTime := by
  unfold publishDoorEvent; cases c <;> rfl

theorem publishDoorEvent_disconnected (s : State) (ts : Nat) (u e st : String) :
    publishDoorEvent s false ts u e st = s := by
  unfold publishDoorEvent; rfl

theorem handleRFID_granted (s : State) (r : RfidInput)
    (hcard : r.cardPresent = true) (hread : r.readSerial = true)
    (hdeb : passesDebounce s (uidString r.uidByte) r.now = true)
    (hin : uidString r.uidByte ∈ allowedUIDs) :
    (handleRFID s r).relay1 = PinLevel.LOW ∧ (handleRFID s r).pulseActive = true ∧
    (handleRFID s r).pulseStartTime = r.pulseMillis := by
  have ha : scanAllowed (uidString r.uidByte) allowedUIDs = true :=
    (scanAllowed_iff _ _).2 hin
  simp only [handleRFID, hcard, hread, hdeb, ha, Bool.not_true, Bool.false_eq_true,
    if_false, if_true, publishDoorEvent_relay1, publishDoorEvent_pulseActive,
    publishDoorEvent_pulseStartTime, updateRFIDStatus, and_self]

/-! ## Access decision -/

/-- Claim C1: a read that passes the debounce test energizes the relay, sets `pulseActive`
and sets `pulseStartTime` to the clock reading when its UID string is an entry of
`allowedUIDs`, whatever the state of the bus session; when it is no entry, relay output,
`pulseActive` and `pulseStartTime` stay as they were.  With the bus session down nothing is
published in either case. -/
theorem handleRFID_grants_exactly_allowed (s : State) (r : RfidInput)
    (hcard : r.cardPresent = true) (hread : r.readSerial = true)
    (hdeb : passesDebounce s (uidString r.uidByte) r.now = true) :
    (uidString r.uidByte ∈ allowedUIDs →
      (handleRFID s r).relay1 = PinLevel.LOW ∧ (handleRFID s r).pulseActive = true ∧
      (handleRFID s r).pulseStartTime = r.pulseMillis) ∧
    (uidString r.uidByte ∉ allowedUIDs →
      (handleRFID s r).relay1 = s.relay1 ∧ (handleRFID s r).pulseActive = s.pulseActive ∧
      (handleRFID s r).pulseStartTime = s.pulseStartTime) ∧
    (r.busConnected = false → (handleRFID s r).published = s.published) := by
  refine ⟨fun hin => ?_, fun hout => ?_, fun hbus => ?_⟩
  · exact handleRFID_granted s r hcard hread hdeb hin
  · have ha : scanAllowed (uidString r.uidByte) allowedUIDs = false := by
      cases h : scanAllowed (uidString r.uidByte) allowedUIDs
      · rfl
      · exact absurd ((scanAllowed_iff _ _).1 h) hout
    simp only [handleRFID, hcard, hread, hdeb, ha, Bool.not_true, Bool.false_eq_true,
      if_false, if_true, publishDoorEvent_relay1, publishDoorEvent_pulseActive,
      publishDoorEvent_pulseStartTime, updateRFIDStatus, and_self]
  · simp only [handleRFID, hcard, hread, hdeb, hbus, Bool.not_true, Bool.false_eq_true,
      if_false, if_true, publishDoorEvent_disconnected, updateRFIDStatus]
    cases scanAllowed (uidString r.uidByte) allowedUIDs <;> rfl

/-- Witness of C1: the badge `93 9B D7 AA`, read right after `setup` with the bus session
down, is granted. -/
theorem handleRFID_grants_exactly_allowed_witness :
    uidString grantedRead.uidByte = "93:9B:D7:AA" ∧
    (handleRFID afterSetup grantedRead).relay1 = PinLevel.LOW ∧
    (handleRFID afterSetup grantedRead).pulseActive = true ∧
    (handleRFID afterSetup grantedRead).pulseStartTime = 5001 :=
  ⟨by decide,
   (handleRFID_grants_exactly_allowed afterSetup grantedRead rfl rfl (by decide)).1
     (by decide)⟩

/-! ## Debounce -/

theorem passesDebounce_eq_false_iff (s : State) (uid : String) (now : Nat) :
    passesDebounce s uid now = false ↔
      (uid = s.lastRFIDUID ∧ subUL now s.lastCardReadTime ≤ cardTimeout) := by
  simp [passesDebounce]

/-- Counterexample to C2 as stated: the badge recorded at 5000 ms is read again at 6000 ms,
so the elapsed time is 1000 ms and not below the window, yet the read is ignored: the state,
and with it the debounce record and the list of published events, is unchanged. -/
theorem handleRFID_ignores_repeat_at_window_end :
    uidString repeatReadAtWindowEnd.uidByte = afterGrantedRead.lastRFIDUID ∧
    subUL repeatReadAtWindowEnd.now afterGrantedRead.lastCardReadTime = 1000 ∧
    ¬ (subUL repeatReadAtWindowEnd.now afterGrantedRead.lastCardReadTime < 1000) ∧
    handleRFID afterGrantedRead repeatReadAtWindowEnd = afterGrantedRead ∧
    (handleRFID afterGrantedRead repeatReadAtWindowEnd).lastCardReadTime
      ≠ repeatReadAtWindowEnd.now := by
  refine ⟨by decide, by decide, by decide, by rfl, by decide⟩

/-- Claim C2, amended: a detected read is ignored (state unchanged: no decision, no event,
debounce record kept) exactly when its UID equals the last-seen UID and the elapsed time
since the last processed read is at most 1000 ms; in every other case (another UID, or the
same UID after more than 1000 ms) the debounce record becomes (this UID, now), the status
line shows the decision, and with the bus session up the decision event is published. -/
theorem handleRFID_debounce (s : State) (r : RfidInput)
    (hcard : r.cardPresent = true) (hread : r.readSerial = true) :
    ((uidString r.uidByte = s.lastRFIDUID ∧ subUL r.now s.lastCardReadTime ≤ cardTimeout) →
      handleRFID s r = s) ∧
    (¬ (uidString r.uidByte = s.lastRFIDUID ∧ subUL r.now s.lastCardReadTime ≤ cardTimeout) →
      (handleRFID s r).lastRFIDUID = uidString r.uidByte ∧
      (handleRFID s r).lastCardReadTime = r.now ∧
      (handleRFID s r).rfidStatus
        = (if uidString r.uidByte ∈ allowedUIDs then "Access Granted" else "Access Denied") ∧
      (r.busConnected = true →
        (handleRFID s r).published
          = s.published ++ [decisionEvent (uidString r.uidByte) r.eventMillis]) ∧
      handleRFID s r ≠ s) := by
  constructor
  · intro h
    have hd := (passesDebounce_eq_false_iff s _ r.now).2 h
    simp [handleRFID, hcard, hread, hd]
  · intro h
    have hd : passesDebounce s (uidString r.uidByte) r.now = true := by
      cases hp : passesDebounce s (uidString r.uidByte) r.now
      · exact absurd ((passesDebounce_eq_false_iff s _ r.now).1 hp) h
      · rfl
    have hrec : (handleRFID s r).lastRFIDUID = uidString r.uidByte ∧
        (handleRFID s r).lastCardReadTime = r.now := by
      simp only [handleRFID, hcard, hread, hd, Bool.not_true, Bool.false_eq_true, if_false,
        if_true, publishDoorEvent, updateRFIDStatus]
      cases scanAllowed (uidString r.uidByte) allowedUIDs <;> cases r.busConnected <;>
        exact ⟨rfl, rfl⟩
    refine ⟨hrec.1, hrec.2, ?_, ?_, ?_⟩
    · by_cases hin : uidString r.uidByte ∈ allowedUIDs
      · have ha := (scanAllowed_iff _ _).2 hin
        simp only [handleRFID, hcard, hread, hd, ha, hin, Bool.not_true, Bool.false_eq_true,
          if_false, if_true, publishDoorEvent, updateRFIDStatus]
        cases r.busConnected <;> rfl
      · have ha : scanAllowed (uidString r.uidByte) allowedUIDs = false := by
          cases h1 : scanAllowed (uidString r.uidByte) allowedUIDs
          · rfl
          · exact absurd ((scanAllowed_iff _ _).1 h1) hin
        simp only [handleRFID, hcard, hread, hd, ha, hin, Bool.not_true, Bool.false_eq_true,
          if_false, if_true, publishDoorEvent, updateRFIDStatus]
        cases r.busConnected <;> rfl
    · intro hbus
      by_cases hin : uidString r.uidByte ∈ allowedUIDs
      · have ha := (scanAllowed_iff _ _).2 hin
        simp only [handleRFID, hcard, hread, hd, ha, hin, hbus, Bool.not_true,
          Bool.false_eq_true, if_false, if_true, publishDoorEvent, updateRFIDStatus,
          decisionEvent]
      · have ha : scanAllowed (uidString r.uidByte) allowedUIDs = false := by
          cases h1 : scanAllowed (uidString r.uidByte) allowedUIDs
          · rfl
          · exact absurd ((scanAllowed_iff _ _).1 h1) hin
        simp only [handleRFID, hcard, hread, hd, ha, hin, hbus, Bool.not_true,
          Bool.false_eq_true, if_false, if_true, publishDoorEvent, updateRFIDStatus,
          decisionEvent]
    · intro heq
      rw [heq] at hrec
      apply h
      refine ⟨hrec.1.symm, ?_⟩
      have : subUL r.now s.lastCardReadTime = 0 := by
        rw [hrec.2]
        unfold subUL
        have hlt : r.now % UL < UL := Nat.mod_lt _ (by decide)
        rw [← Nat.add_sub_assoc (Nat.le_of_lt hlt), Nat.add_comm,
          Nat.add_sub_cancel, Nat.mod_self]
      rw [this]
      exact Nat.zero_le _

/-- Witness of the amended C2: the repeat at 1000 ms is ignored, the repeat at 1001 ms is
decided anew. -/
theorem handleRFID_debounce_witness :
    handleRFID afterGrantedRead repeatReadAtWindowEnd = afterGrantedRead ∧
    (handleRFID afterGrantedRead repeatReadPastWindow).lastCardReadTime = 6001 :=
  ⟨(handleRFID_debounce afterGrantedRead repeatReadAtWindowEnd rfl rfl).1
     ⟨by decide, by decide⟩,
   ((handleRFID_debounce afterGrantedRead repeatReadPastWindow rfl rfl).2
     (by decide)).2.1⟩

/-! ## Relay pulse and remote commands -/

theorem handleRelayPulse_running (s : State) (now : Nat)
    (h : subUL now s.pulseStartTime < pulseDuration) : handleRelayPulse s now = s := by
  have : ¬ (pulseDuration ≤ subUL now s.pulseStartTime) := Nat.not_le.2 h
  simp [handleRelayPulse, this]

theorem handleRelayPulse_inactive (s : State) (now : Nat) (h : s.pulseActive = false) :
    handleRelayPulse s now = s := by
  simp [handleRelayPulse, h]

theorem handleRelayPulse_expired (s : State) (now : Nat) (ha : s.pulseActive = true)
    (h : pulseDuration ≤ subUL now s.pulseStartTime) :
    handleRelayPulse s now = { s with relay1 := PinLevel.HIGH, pulseActive := false } := by
  simp [handleRelayPulse, ha, h]

theorem pulseRun_running (s : State) (clock : List Nat)
    (h : ∀ v ∈ clock, subUL v s.pulseStartTime < pulseDuration) : pulseRun s clock = s := by
  induction clock with
  | nil => rfl
  | cons v rest ih =>
    have hv := h v (List.mem_cons_self v rest)
    have hrest : ∀ w ∈ rest, subUL w s.pulseStartTime < pulseDuration :=
      fun w hw => h w (List.mem_cons_of_mem v hw)
    show pulseRun (handleRelayPulse s v) rest = s
    rw [handleRelayPulse_running s v hv]
    exact ih hrest

theorem pulseRun_inactive (s : State) (clock : List Nat) (h : s.pulseActive = false) :
    pulseRun s clock = s := by
  induction clock with
  | nil => rfl
  | cons v rest ih =>
    show pulseRun (handleRelayPulse s v) rest = s
    rw [handleRelayPulse_inactive s v h]
    exact ih

theorem mqttCallback_parse_error (J : JsonLib) (s : State) (m : MqttInput)
    (h : J.deserializeJson 256 (payloadMessage m.payload) = none) :
    mqttCallback J s m
      = { s with serial := s.serial ++ [SerialLine.messageArrived (payloadMessage m.payload)] } := by
  simp only [mqttCallback, h]

theorem mqttCallback_unlock (J : JsonLib) (s : State) (m : MqttInput) (doc : J.Doc)
    (hp : ParsesTo J m doc) (ha : Addressed J doc)
    (hc : J.getOrEmpty doc "command" = "unlock") :
    mqttCallback J s m
      = publishDoorEvent
          { s with serial := s.serial ++ [SerialLine.messageArrived (payloadMessage m.payload)],
                   relay1 := PinLevel.LOW, pulseStartTime := m.pulseMillis,
                   pulseActive := true }
          m.busConnected m.eventMillis "" "remote_unlock" "unlocked" := by
  unfold ParsesTo at hp
  simp only [mqttCallback, hp, ha.1, ha.2, hc, and_self, if_true]

theorem mqttCallback_lock (J : JsonLib) (s : State) (m : MqttInput) (doc : J.Doc)
    (hp : ParsesTo J m doc) (ha : Addressed J doc)
    (hc : J.getOrEmpty doc "command" = "lock") :
    mqttCallback J s m
      = publishDoorEvent
          { s with serial := s.serial ++ [SerialLine.messageArrived (payloadMessage m.payload)],
                   relay1 := PinLevel.HIGH, pulseActive := false }
          m.busConnected m.eventMillis "" "remote_lock" "locked" := by
  unfold ParsesTo at hp
  have hne : ¬ ("lock" = "unlock") := by decide
  simp only [mqttCallback, hp, ha.1, ha.2, hc, hne, and_self, if_true, if_false]

theorem mqttCallback_not_addressed (J : JsonLib) (s : State) (m : MqttInput) (doc : J.Doc)
    (hp : ParsesTo J m doc) (ha : ¬ Addressed J doc) :
    mqttCallback J s m
      = { s with serial := s.serial ++ [SerialLine.messageArrived (payloadMessage m.payload)] } := by
  unfold ParsesTo at hp
  unfold Addressed at ha
  simp only [mqttCallback, hp, ha, if_false]

theorem mqttCallback_unknown_command (J : JsonLib) (s : State) (m : MqttInput) (doc : J.Doc)
    (hp : ParsesTo J m doc) (hu : J.getOrEmpty doc "command" ≠ "unlock")
    (hl : J.getOrEmpty doc "command" ≠ "lock") :
    mqttCallback J s m
      = { s with serial := s.serial ++ [SerialLine.messageArrived (payloadMessage m.payload)] } := by
  unfold ParsesTo at hp
  simp only [mqttCallback, hp, hu, hl, if_false, ite_self]

/-- Claim C3: after a trigger at time `t` (a granted read or a remote unlock, from any state
`s`, also one whose pulse was started earlier) the relay is energized with `pulseActive` set
and `pulseStartTime = t`; calls of `handleRelayPulse` at clock values less than 100 ms after
`t` change nothing, so after each of them the relay is still energized; the first call at a
clock value 100 ms or more after `t` writes `HIGH` and clears `pulseActive`.  The start time
of an earlier pulse plays no part. -/
theorem pulse_ends_pulseDuration_after_last_trigger (J : JsonLib) (s s1 : State) (t : Nat)
    (clock : List Nat) (u : Nat)
    (htrig : GrantAt s t s1 ∨ UnlockAt J s t s1)
    (hbefore : ∀ v ∈ clock, subUL v t < pulseDuration)
    (hu : pulseDuration ≤ subUL u t) :
    s1.relay1 = PinLevel.LOW ∧ s1.pulseActive = true ∧ s1.pulseStartTime = t ∧
    (∀ k, (pulseRun s1 (clock.take k)).relay1 = PinLevel.LOW ∧
          (pulseRun s1 (clock.take k)).pulseActive = true) ∧
    (handleRelayPulse (pulseRun s1 clock) u).relay1 = PinLevel.HIGH ∧
    (handleRelayPulse (pulseRun s1 clock) u).pulseActive = false := by
  have h3 : s1.relay1 = PinLevel.LOW ∧ s1.pulseActive = true ∧ s1.pulseStartTime = t := by
    rcases htrig with ⟨r, hc, hr, hd, hin, ht, rfl⟩ | ⟨m, doc, hp, ha, hc, ht, rfl⟩
    · rw [← ht]
      exact handleRFID_granted s r hc hr hd hin
    · rw [mqttCallback_unlock J s m doc hp ha hc, publishDoorEvent_relay1,
        publishDoorEvent_pulseActive, publishDoorEvent_pulseStartTime, ← ht]
      exact ⟨rfl, rfl, rfl⟩
  obtain ⟨hrelay, hactive, hstart⟩ := h3
  have hrun : ∀ l : List Nat, (∀ v ∈ l, subUL v t < pulseDuration) → pulseRun s1 l = s1 := by
    intro l hl
    apply pulseRun_running
    rw [hstart]
    exact hl
  refine ⟨hrelay, hactive, hstart, ?_, ?_⟩
  · intro k
    rw [hrun (clock.take k) (fun v hv => hbefore v (List.mem_of_mem_take hv))]
    exact ⟨hrelay, hactive⟩
  · rw [hrun clock hbefore, handleRelayPulse_expired s1 u hactive (by rw [hstart]; exact hu)]
    exact ⟨rfl, rfl⟩

/-- Witness of C3: the pulse started at 5001 ms is triggered again at 5050 ms; calls at
5060, 5101 and 5149 ms leave the relay energized (5101 is 100 ms after the first trigger),
the call at 5150 ms de-energizes it. -/
theorem pulse_ends_pulseDuration_after_last_trigger_witness :
    afterGrantedRead.pulseActive = true ∧ afterGrantedRead.pulseStartTime = 5001 ∧
    afterRetrigger.pulseStartTime = 5050 ∧
    (pulseRun afterRetrigger ([5060, 5101, 5149].take 3)).relay1 = PinLevel.LOW ∧
    (handleRelayPulse (pulseRun afterRetrigger [5060, 5101, 5149]) 5150).relay1
      = PinLevel.HIGH :=
  have h := pulse_ends_pulseDuration_after_last_trigger fieldsJson afterGrantedRead
    afterRetrigger 5050 [5060, 5101, 5149] 5150
    (Or.inr ⟨unlockMessage, unlockDoc, rfl, ⟨rfl, rfl⟩, rfl, rfl, rfl⟩)
    (by decide) (by decide)
  ⟨by decide, by decide, h.2.2.1, (h.2.2.2.1 3).1, h.2.2.2.2.1⟩

/-- Claim C4: from every state, also one with a pulse active whose deadline has not passed,
a well-formed `lock` command for this device leaves the relay de-energized with `pulseActive`
cleared, and any number of later calls of `handleRelayPulse`, at any clock values, leave it
so. -/
theorem lock_command_cancels_pulse (J : JsonLib) (s : State) (m : MqttInput) (doc : J.Doc)
    (clock : List Nat)
    (hp : ParsesTo J m doc) (ha : Addressed J doc)
    (hc : J.getOrEmpty doc "command" = "lock") :
    (mqttCallback J s m).relay1 = PinLevel.HIGH ∧
    (mqttCallback J s m).pulseActive = false ∧
    (pulseRun (mqttCallback J s m) clock).relay1 = PinLevel.HIGH ∧
    (pulseRun (mqttCallback J s m) clock).pulseActive = false := by
  have h1 : (mqttCallback J s m).relay1 = PinLevel.HIGH := by
    rw [mqttCallback_lock J s m doc hp ha hc, publishDoorEvent_relay1]
  have h2 : (mqttCallback J s m).pulseActive = false := by
    rw [mqttCallback_lock J s m doc hp ha hc, publishDoorEvent_pulseActive]
  rw [pulseRun_inactive _ clock h2]
  exact ⟨h1, h2, h1, h2⟩

/-- Witness of C4: a `lock` command arriving mid-pulse (pulse started at 5001 ms, still
running at 5060 ms). -/
theorem lock_command_cancels_pulse_witness :
    afterGrantedRead.pulseActive = true ∧
    handleRelayPulse afterGrantedRead 5060 = afterGrantedRead ∧
    (mqttCallback fieldsJson afterGrantedRead lockMessage).relay1 = PinLevel.HIGH ∧
    (mqttCallback fieldsJson afterGrantedRead lockMessage).pulseActive = false ∧
    (pulseRun (mqttCallback fieldsJson afterGrantedRead lockMessage) [5070, 9000]).relay1
      = PinLevel.HIGH ∧
    (pulseRun (mqttCallback fieldsJson afterGrantedRead lockMessage) [5070, 9000]).pulseActive
      = false :=
  ⟨by decide, by rfl,
   lock_command_cancels_pulse fieldsJson afterGrantedRead lockMessage lockDoc [5070, 9000]
     rfl ⟨rfl, rfl⟩ rfl⟩

/-- Claim C5: `mqttCallback` leaves relay output, `pulseActive` and `pulseStartTime` as they
were and publishes no event when the payload fails to parse, or its type is not "command",
or its device id is not `deviceID`, or its command is neither "unlock" nor "lock"; and
whenever one call changes the relay output or `pulseActive`, the payload parsed, its type
is "command", its device id is `deviceID` and its command is "unlock" or "lock". -/
theorem mqttCallback_acts_only_on_own_commands (J : JsonLib) (s : State) (m : MqttInput) :
    ((J.deserializeJson 256 (payloadMessage m.payload) = none ∨
      ∃ doc, ParsesTo J m doc ∧
        (J.getOrEmpty doc "type" ≠ "command" ∨ J.getOrEmpty doc "device_id" ≠ deviceID ∨
         (J.getOrEmpty doc "command" ≠ "unlock" ∧ J.getOrEmpty doc "command" ≠ "lock"))) →
      (mqttCallback J s m).relay1 = s.relay1 ∧
      (mqttCallback J s m).pulseActive = s.pulseActive ∧
      (mqttCallback J s m).pulseStartTime = s.pulseStartTime ∧
      (mqttCallback J s m).published = s.published) ∧
    (((mqttCallback J s m).relay1 ≠ s.relay1 ∨
      (mqttCallback J s m).pulseActive ≠ s.pulseActive) →
      ∃ doc, ParsesTo J m doc ∧ J.getOrEmpty doc "type" = "command" ∧
        J.getOrEmpty doc "device_id" = deviceID ∧
        (J.getOrEmpty doc "command" = "unlock" ∨ J.getOrEmpty doc "command" = "lock")) := by
  have hframe : (J.deserializeJson 256 (payloadMessage m.payload) = none ∨
      ∃ doc, ParsesTo J m doc ∧
        (J.getOrEmpty doc "type" ≠ "command" ∨ J.getOrEmpty doc "device_id" ≠ deviceID ∨
         (J.getOrEmpty doc "command" ≠ "unlock" ∧ J.getOrEmpty doc "command" ≠ "lock"))) →
      mqttCallback J s m
        = { s with serial :=
              s.serial ++ [SerialLine.messageArrived (payloadMessage m.payload)] } := by
    rintro (hnone | ⟨doc, hp, hty | hdev | ⟨hu, hl⟩⟩)
    · exact mqttCallback_parse_error J s m hnone
    · exact mqttCallback_not_addressed J s m doc hp (fun h => hty h.1)
    · exact mqttCallback_not_addressed J s m doc hp (fun h => hdev h.2)
    · exact mqttCallback_unknown_command J s m doc hp hu hl
  constructor
  · intro h
    rw [hframe h]
    exact ⟨rfl, rfl, rfl, rfl⟩
  · intro hchg
    by_contra hno
    have hign : J.deserializeJson 256 (payloadMessage m.payload) = none ∨
        ∃ doc, ParsesTo J m doc ∧
          (J.getOrEmpty doc "type" ≠ "command" ∨ J.getOrEmpty doc "device_id" ≠ deviceID ∨
           (J.getOrEmpty doc "command" ≠ "unlock" ∧
            J.getOrEmpty doc "command" ≠ "lock")) := by
      cases hparse : J.deserializeJson 256 (payloadMessage m.payload) with
      | none => exact Or.inl rfl
      | some doc =>
        right
        refine ⟨doc, hparse, ?_⟩
        by_contra hall
        apply hno
        refine ⟨doc, hparse, ?_, ?_, ?_⟩
        · by_contra h1; exact hall (Or.inl h1)
        · by_contra h2; exact hall (Or.inr (Or.inl h2))
        · by_contra h3
          apply hall
          right; right
          exact ⟨fun hu => h3 (Or.inl hu), fun hl => h3 (Or.inr hl)⟩
    rw [hframe hign] at hchg
    rcases hchg with h | h <;> exact h rfl

/-- Witness of C5: an `unlock` command for another device changes nothing on the relay and
publishes nothing, and the accepted `unlock` command, which does change the relay, carries
the three fields. -/
theorem mqttCallback_acts_only_on_own_commands_witness :
    ((mqttCallback fieldsJson afterSetup foreignMessage).relay1 = afterSetup.relay1 ∧
     (mqttCallback fieldsJson afterSetup foreignMessage).pulseActive = afterSetup.pulseActive ∧
     (mqttCallback fieldsJson afterSetup foreignMessage).pulseStartTime
       = afterSetup.pulseStartTime ∧
     (mqttCallback fieldsJson afterSetup foreignMessage).published = afterSetup.published) ∧
    ∃ doc, ParsesTo fieldsJson unlockMessage doc ∧
      fieldsJson.getOrEmpty doc "type" = "command" ∧
      fieldsJson.getOrEmpty doc "device_id" = deviceID ∧
      (fieldsJson.getOrEmpty doc "command" = "unlock" ∨
       fieldsJson.getOrEmpty doc "command" = "lock") :=
  ⟨(mqttCallback_acts_only_on_own_commands fieldsJson afterSetup foreignMessage).1
     (Or.inr ⟨foreignDoc, rfl, Or.inr (Or.inl (by decide))⟩),
   (mqttCallback_acts_only_on_own_commands fieldsJson afterSetup unlockMessage).2
     (Or.inl (by decide))⟩

/-! ## Wi-Fi back-off -/

theorem wifiInterval_nat (n : Nat) : wifiInterval (n : Int) = 1000 + min n 10 * 2000 := by
  unfold wifiInterval UL
  omega

theorem connectWiFiNonBlocking_down_exhausted (s : State) (w : WifiInput)
    (h10 : s.failCount = 10) (hdown : w.statusConnected = false) :
    (connectWiFiNonBlocking s w).wifiBegins = s.wifiBegins ∧
    (connectWiFiNonBlocking s w).failCount = 10 := by
  unfold connectWiFiNonBlocking
  by_cases hwait : subUL w.now s.lastWiFiCheck < wifiInterval s.failCount
  · rw [if_pos hwait]
    exact ⟨rfl, h10⟩
  · rw [if_neg hwait]
    simp [h10, hdown, maxFailCount]

/-- Claim C6: with the failure counter at `n` the interval of line 157 is
`1000 + min(n, 10) * 2000` ms, at most 21000 ms, and 1000, 3000, 5000 for `n` = 0, 1, 2; a call
made before that interval has elapsed returns at once; and after a call that takes the branch
which sets `wifiConnected = true` the counter is 0 and the next interval is 1000 ms. -/
theorem wifi_backoff_interval (s : State) (w : WifiInput) (n : Nat) :
    wifiInterval (n : Int) = 1000 + min n 10 * 2000 ∧
    wifiInterval (n : Int) ≤ 21000 ∧
    (wifiInterval 0 = 1000 ∧ wifiInterval 1 = 3000 ∧ wifiInterval 2 = 5000 ∧
      wifiInterval 10 = 21000) ∧
    (subUL w.now s.lastWiFiCheck < wifiInterval s.failCount →
      connectWiFiNonBlocking s w = s) ∧
    (¬ (subUL w.now s.lastWiFiCheck < wifiInterval s.failCount) →
      w.statusConnected = true → s.wifiConnected = false →
      (connectWiFiNonBlocking s w).wifiConnected = true ∧
      (connectWiFiNonBlocking s w).failCount = 0 ∧
      wifiInterval (connectWiFiNonBlocking s w).failCount = 1000) := by
  refine ⟨wifiInterval_nat n, ?_, ⟨by decide, by decide, by decide, by decide⟩, ?_, ?_⟩
  · rw [wifiInterval_nat]; omega
  · intro h
    simp [connectWiFiNonBlocking, h]
  · intro h hup hwifi
    simp only [connectWiFiNonBlocking, h, hup, hwifi, if_false, Bool.not_true,
      Bool.false_eq_true, Bool.not_false, if_true, true_and]
    decide

/-- Witness of C6: at power-on the counter is 0 and a call at 999 ms returns at once; a call
at 1000 ms that finds the link up leaves the counter at 0. -/
theorem wifi_backoff_interval_witness :
    connectWiFiNonBlocking afterSetup { now := 999, statusConnected := true } = afterSetup ∧
    (connectWiFiNonBlocking afterSetup { now := 1000, statusConnected := true }).failCount = 0 ∧
    wifiInterval 7 = 15000 :=
  ⟨(wifi_backoff_interval afterSetup { now := 999, statusConnected := true } 7).2.2.2.1
     (by decide),
   ((wifi_backoff_interval afterSetup { now := 1000, statusConnected := true } 7).2.2.2.2
     (by decide) rfl rfl).2.1,
   (wifi_backoff_interval afterSetup { now := 1000, statusConnected := true } 7).1⟩

/-- Counterexample to C7 as stated: after ten failed attempts the counter is 10; the link is
then found up once (the counter is set back to 0) and found down again later, and that later
call issues an eleventh `WiFi.begin`. -/
theorem wifi_attempt_after_exhaustion :
    exhausted.failCount = 10 ∧ exhausted.wifiBegins = 10 ∧
    (wifiRun exhausted upThenDown).wifiBegins = 11 := by
  decide

/-- Claim C7, amended: once the failure counter is 10, no later call issues `WiFi.begin`,
for every sequence of clock values, as long as every link-status reading is "not connected";
the counter then stays at 10. -/
theorem wifi_no_attempt_while_exhausted (s : State) (calls : List WifiInput)
    (h10 : s.failCount = 10) (hdown : ∀ w ∈ calls, w.statusConnected = false) :
    (wifiRun s calls).wifiBegins = s.wifiBegins ∧ (wifiRun s calls).failCount = 10 := by
  induction calls generalizing s with
  | nil => exact ⟨rfl, h10⟩
  | cons w rest ih =>
    have hw := connectWiFiNonBlocking_down_exhausted s w h10
      (hdown w (List.mem_cons_self w rest))
    have hrest := ih (connectWiFiNonBlocking s w) hw.2
      (fun v hv => hdown v (List.mem_cons_of_mem w hv))
    show (wifiRun (connectWiFiNonBlocking s w) rest).wifiBegins = s.wifiBegins ∧
      (wifiRun (connectWiFiNonBlocking s w) rest).failCount = 10
    rw [hrest.1, hw.1]
    exact ⟨rfl, hrest.2⟩

/-- Witness of the amended C7: with the link found down at 121000 and 150000 ms the number
of attempts stays at ten. -/
theorem wifi_no_attempt_while_exhausted_witness :
    (wifiRun exhausted staysDown).wifiBegins = exhausted.wifiBegins ∧
    (wifiRun exhausted staysDown).failCount = 10 :=
  wifi_no_attempt_while_exhausted exhausted staysDown (by decide) (by decide)

/-! ## Firmware update check -/

theorem otaUpdate_httpGets (s : State) (fwFile : String) (o : OtaInput) :
    (otaUpdate s fwFile o).httpGets = s.httpGets ++ [otaBaseURL ++ fwFile] := by
  unfold otaUpdate
  simp only []
  split
  · rfl
  · split
    · rfl
    · split <;> split <;> (try split) <;> rfl

theorem otaCheck_due (J : JsonLib) (s : State) (o : OtaInput)
    (hwifi : s.wifiConnected = true)
    (hdue : otaInterval ≤ subUL o.millis1 s.lastOTACheck) :
    otaCheck J s o =
      if o.manifestCode ≠ 200 then
        CheckOutcome.returned
          { s with lastOTACheck := o.millis2, httpGets := s.httpGets ++ [otaJsonURL],
                   otaStatus := OTAStatus.OTA_ERROR }
      else
        match J.deserializeJson 512 o.manifestBody with
        | none =>
          CheckOutcome.returned
            { s with lastOTACheck := o.millis2, httpGets := s.httpGets ++ [otaJsonURL],
                     otaStatus := OTAStatus.OTA_ERROR }
        | some doc =>
          if J.getString doc "version" = currentFirmwareVersion then
            CheckOutcome.returned
              { s with lastOTACheck := o.millis2, httpGets := s.httpGets ++ [otaJsonURL],
                       otaStatus := OTAStatus.OTA_IDLE }
          else
            CheckOutcome.updating
              { s with lastOTACheck := o.millis2, httpGets := s.httpGets ++ [otaJsonURL],
                       otaStatus := OTAStatus.OTA_UPDATING }
              (J.getString doc "file") := by
  have hnot : ¬ (subUL o.millis1 s.lastOTACheck < otaInterval) := Nat.not_lt.2 hdue
  simp only [otaCheck, hwifi, hnot, Bool.not_true, Bool.false_eq_true, if_false]

/-- Claim C8: when `checkOTA` runs its check (link connected, poll interval elapsed): a
manifest answer other than 200, or a body that fails to parse, ends with `OTA_ERROR`; a
manifest whose version string equals `currentFirmwareVersion` ends with `OTA_IDLE` and only
the manifest was requested; a manifest whose version string differs in any way leaves the
check with `otaStatus = OTA_UPDATING` and goes on to request the firmware file. -/
theorem checkOTA_compares_versions (J : JsonLib) (s : State) (o : OtaInput)
    (hwifi : s.wifiConnected = true)
    (hdue : otaInterval ≤ subUL o.millis1 s.lastOTACheck) :
    ((o.manifestCode ≠ 200 ∨ J.deserializeJson 512 o.manifestBody = none) →
      (checkOTA J s o).otaStatus = OTAStatus.OTA_ERROR ∧
      (checkOTA J s o).httpGets = s.httpGets ++ [otaJsonURL]) ∧
    (∀ doc, o.manifestCode = 200 → J.deserializeJson 512 o.manifestBody = some doc →
      (J.getString doc "version" = currentFirmwareVersion →
        (checkOTA J s o).otaStatus = OTAStatus.OTA_IDLE ∧
        (checkOTA J s o).httpGets = s.httpGets ++ [otaJsonURL]) ∧
      (J.getString doc "version" ≠ currentFirmwareVersion →
        (∃ s1, otaCheck J s o = CheckOutcome.updating s1 (J.getString doc "file") ∧
          s1.otaStatus = OTAStatus.OTA_UPDATING ∧
          checkOTA J s o = otaUpdate s1 (J.getString doc "file") o) ∧
        (checkOTA J s o).httpGets
          = s.httpGets ++ [otaJsonURL] ++ [otaBaseURL ++ J.getString doc "file"])) := by
  have hck := otaCheck_due J s o hwifi hdue
  refine ⟨?_, ?_⟩
  · intro hbad
    by_cases hcode : o.manifestCode ≠ 200
    · rw [if_pos hcode] at hck
      simp only [checkOTA, hck, and_self]
    · rcases hbad with h | hnone
      · exact absurd h hcode
      · rw [if_neg hcode, hnone] at hck
        simp only [checkOTA, hck, and_self]
  · intro doc hcode hparse
    have hcode2 : ¬ (o.manifestCode ≠ 200) := fun h => h hcode
    rw [if_neg hcode2, hparse] at hck
    refine ⟨?_, ?_⟩
    · intro hsame
      simp only [hsame, if_true] at hck
      simp only [checkOTA, hck, and_self]
    · intro hdiff
      simp only [hdiff, if_false] at hck
      refine ⟨⟨_, hck, rfl, ?_⟩, ?_⟩
      · simp only [checkOTA, hck]
      · simp only [checkOTA, hck, otaUpdate_httpGets]

/-- Witness of C8: with the link up and the poll due, a manifest naming "1.0.15" against the
running "1.0.14" leaves the check with `OTA_UPDATING`, a manifest naming "1.0.14" ends with
`OTA_IDLE`. -/
theorem checkOTA_compares_versions_witness :
    (∃ s1, otaCheck fieldsJson linkUp (manifestAnswer "1.0.15")
        = CheckOutcome.updating s1 "fw.bin" ∧
      s1.otaStatus = OTAStatus.OTA_UPDATING ∧
      checkOTA fieldsJson linkUp (manifestAnswer "1.0.15")
        = otaUpdate s1 "fw.bin" (manifestAnswer "1.0.15")) ∧
    (checkOTA fieldsJson linkUp (manifestAnswer "1.0.14")).otaStatus = OTAStatus.OTA_IDLE :=
  ⟨(((checkOTA_compares_versions fieldsJson linkUp (manifestAnswer "1.0.15")
        (by decide) (by decide)).2
      [("version", "1.0.15"), ("file", "fw.bin")] rfl rfl).2 (by decide)).1,
   (((checkOTA_compares_versions fieldsJson linkUp (manifestAnswer "1.0.14")
        (by decide) (by decide)).2
      [("version", "1.0.14"), ("file", "fw.bin")] rfl rfl).1 (by decide)).1⟩

/-! ## Canonical UID string -/

/-- What the loop body appends for one byte after the first: a colon, the pad, the digits. -/
theorem uidLoop_succ (bytes : List Nat) (i : Nat) (acc : List Char) :
    uidLoop bytes (i + 1) acc
      = acc ++ (bytes.map fun b =>
          ':' :: ((if b < 0x10 then ['0'] else []) ++ hexString b)).flatten := by
  induction bytes generalizing i acc with
  | nil => simp [uidLoop]
  | cons b rest ih =>
    rw [uidLoop, ih]
    by_cases hb : b < 0x10 <;> simp [uidAppend, hb]

set_option maxRecDepth 100000 in
theorem toUpperCase_byte :
    ∀ b, b < 256 →
      toUpperCase ((if b < 0x10 then ['0'] else []) ++ hexString b) = twoDigitUpperHex b := by
  decide

set_option maxRecDepth 100000 in
theorem twoDigitUpperHex_alphabet :
    ∀ b, b < 256 → ∀ c ∈ twoDigitUpperHex b, c ∈ uidAlphabet := by
  decide

theorem uidString_cons (b : Nat) (rest : List Nat) (hb : ∀ x ∈ b :: rest, x < 256) :
    toUpperCase (uidLoop (b :: rest) 0 [])
      = twoDigitUpperHex b ++ (rest.map fun x => ':' :: twoDigitUpperHex x).flatten := by
  have hhead := toUpperCase_byte b (hb b (List.mem_cons_self b rest))
  have htail : ∀ l : List Nat, (∀ x ∈ l, x < 256) →
      toUpperCase (l.map fun x =>
          ':' :: ((if x < 0x10 then ['0'] else []) ++ hexString x)).flatten
        = (l.map fun x => ':' :: twoDigitUpperHex x).flatten := by
    intro l hl
    induction l with
    | nil => rfl
    | cons x xs ih =>
      have hx := toUpperCase_byte x (hl x (List.mem_cons_self x xs))
      have hxs := ih (fun y hy => hl y (List.mem_cons_of_mem x hy))
      simp only [toUpperCase, List.map_cons, List.flatten_cons, List.map_append] at hx hxs ⊢
      rw [hxs, hx]
      rfl
  have hrest := htail rest (fun y hy => hb y (List.mem_cons_of_mem b hy))
  rw [uidLoop, uidLoop_succ]
  have hfirst : uidAppend [] 0 b = (if b < 0x10 then ['0'] else []) ++ hexString b := by
    by_cases h : b < 0x10 <;> simp [uidAppend, h]
  rw [hfirst]
  simp only [toUpperCase, List.map_append] at hhead hrest ⊢
  rw [hhead, hrest]

theorem intercalate_colon (b : Nat) (rest : List Nat) :
    List.intercalate [':'] ((b :: rest).map twoDigitUpperHex)
      = twoDigitUpperHex b ++ (rest.map fun x => ':' :: twoDigitUpperHex x).flatten := by
  induction rest generalizing b with
  | nil => simp [List.intercalate, List.intersperse]
  | cons x xs ih =>
    have h := ih x
    simp only [List.intercalate, List.map_cons, List.intersperse, List.flatten_cons] at h ⊢
    rw [h]
    simp

/-- Claim C9: for a card serial of `n >= 1` bytes the string built by `handleRFID` is the
two-digit, zero-padded, uppercase hexadecimal renderings of the bytes in order, separated
by single colons; it has length `3n - 1` and holds only characters of `0-9`, `A-F`
and `:`. -/
theorem uidString_canonical (bytes : List Nat) (hn : 1 ≤ bytes.length)
    (hb : ∀ b ∈ bytes, b < 256) :
    uidString bytes = canonicalUid bytes ∧
    (uidString bytes).length = 3 * bytes.length - 1 ∧
    ∀ c ∈ (uidString bytes).data, c ∈ uidAlphabet := by
  cases bytes with
  | nil => simp at hn
  | cons b rest =>
    have hform := uidString_cons b rest hb
    have hlen : ∀ l : List Nat,
        ((l.map fun x => ':' :: twoDigitUpperHex x).flatten).length = 3 * l.length := by
      intro l
      induction l with
      | nil => rfl
      | cons x xs ih =>
        rw [List.map_cons, List.flatten_cons, List.length_append, ih]
        simp only [twoDigitUpperHex, List.length_cons, List.length_nil]
        omega
    have hmem : ∀ l : List Nat, (∀ x ∈ l, x < 256) →
        ∀ c ∈ (l.map fun x => ':' :: twoDigitUpperHex x).flatten, c ∈ uidAlphabet := by
      intro l hl c hc
      rw [List.mem_flatten] at hc
      obtain ⟨part, hpart, hcp⟩ := hc
      rw [List.mem_map] at hpart
      obtain ⟨x, hx, rfl⟩ := hpart
      rcases List.mem_cons.1 hcp with rfl | hc2
      · decide
      · exact twoDigitUpperHex_alphabet x (hl x hx) c hc2
    refine ⟨?_, ?_, ?_⟩
    · unfold uidString canonicalUid
      rw [hform, intercalate_colon]
    · show (toUpperCase (uidLoop (b :: rest) 0 [])).length = 3 * (b :: rest).length - 1
      rw [hform, List.length_append, hlen]
      simp only [twoDigitUpperHex, List.length_cons, List.length_nil]
      omega
    · intro c hc
      have hc1 : c ∈ toUpperCase (uidLoop (b :: rest) 0 []) := hc
      rw [hform, List.mem_append] at hc1
      rcases hc1 with h1 | h2
      · exact twoDigitUpperHex_alphabet b (hb b (List.mem_cons_self b rest)) c h1
      · exact hmem rest (fun y hy => hb y (List.mem_cons_of_mem b hy)) c h2

/-- Witness of C9: the bytes `93 9B D7 AA` give "93:9B:D7:AA", of length 11. -/
theorem uidString_canonical_witness :
    uidString [0x93, 0x9B, 0xD7, 0xAA] = "93:9B:D7:AA" ∧
    (uidString [0x93, 0x9B, 0xD7, 0xAA]).length = 3 * [0x93, 0x9B, 0xD7, 0xAA].length - 1 ∧
    canonicalUid [0x93, 0x9B, 0xD7, 0xAA] = "93:9B:D7:AA" :=
  have h := uidString_canonical [0x93, 0x9B, 0xD7, 0xAA] (by decide) (by decide)
  ⟨by decide, h.2.1, by decide⟩

/-! ## Relay output and pulse flag -/

theorem handleRFID_relayStep (s : State) (r : RfidInput) : RelayStep s (handleRFID s r) := by
  unfold RelayStep
  by_cases hcard : r.cardPresent = true
  · by_cases hread : r.readSerial = true
    · cases hdeb : passesDebounce s (uidString r.uidByte) r.now
      · left
        simp [handleRFID, hcard, hread, hdeb]
      · cases ha : scanAllowed (uidString r.uidByte) allowedUIDs
        · left
          simp only [handleRFID, hcard, hread, hdeb, ha, Bool.not_true, Bool.false_eq_true,
            if_false, if_true, publishDoorEvent_relay1, publishDoorEvent_pulseActive,
            updateRFIDStatus, and_self]
        · right; left
          exact ⟨(handleRFID_granted s r hcard hread hdeb ((scanAllowed_iff _ _).1 ha)).1,
            (handleRFID_granted s r hcard hread hdeb ((scanAllowed_iff _ _).1 ha)).2.1⟩
    · left
      simp [handleRFID, hcard, hread]
  · left
    simp [handleRFID, hcard]

theorem mqttCallback_relayStep (J : JsonLib) (s : State) (m : MqttInput) :
    RelayStep s (mqttCallback J s m) := by
  unfold RelayStep
  cases hparse : J.deserializeJson 256 (payloadMessage m.payload) with
  | none =>
    left
    rw [mqttCallback_parse_error J s m hparse]
    exact ⟨rfl, rfl⟩
  | some doc =>
    by_cases ha : Addressed J doc
    · by_cases hu : J.getOrEmpty doc "command" = "unlock"
      · right; left
        rw [mqttCallback_unlock J s m doc hparse ha hu, publishDoorEvent_relay1,
          publishDoorEvent_pulseActive]
        exact ⟨rfl, rfl⟩
      · by_cases hl : J.getOrEmpty doc "command" = "lock"
        · right; right
          rw [mqttCallback_lock J s m doc hparse ha hl, publishDoorEvent_relay1,
            publishDoorEvent_pulseActive]
          exact ⟨rfl, rfl⟩
        · left
          rw [mqttCallback_unknown_command J s m doc hparse hu hl]
          exact ⟨rfl, rfl⟩
    · left
      rw [mqttCallback_not_addressed J s m doc hparse ha]
      exact ⟨rfl, rfl⟩

theorem handleRelayPulse_relayStep (s : State) (now : Nat) :
    RelayStep s (handleRelayPulse s now) := by
  unfold RelayStep
  by_cases h : (s.pulseActive && decide (subUL now s.pulseStartTime ≥ pulseDuration)) = true
  · right; right
    unfold handleRelayPulse
    rw [if_pos h]
    exact ⟨rfl, rfl⟩
  · left
    unfold handleRelayPulse
    rw [if_neg h]
    exact ⟨rfl, rfl⟩

theorem relayStep_preserves (s s1 : State) (hstep : RelayStep s s1)
    (h : RelayMatchesPulse s) : RelayMatchesPulse s1 := by
  unfold RelayMatchesPulse at h ⊢
  rcases hstep with ⟨h1, h2⟩ | ⟨h1, h2⟩ | ⟨h1, h2⟩
  · rw [h1, h2]; exact h
  · rw [h1, h2]; exact ⟨fun _ => rfl, fun _ => rfl⟩
  · rw [h1, h2]
    constructor
    · intro hc; exact absurd hc (by decide)
    · intro hc; exact absurd hc (by decide)

theorem runCalls_preserves (J : JsonLib) (s : State) (calls : List Call)
    (h : RelayMatchesPulse s) : RelayMatchesPulse (runCalls J s calls) := by
  induction calls generalizing s with
  | nil => exact h
  | cons c rest ih =>
    show RelayMatchesPulse (runCalls J (Call.run J s c) rest)
    apply ih
    cases c with
    | rfid r => exact relayStep_preserves s _ (handleRFID_relayStep s r) h
    | mqtt m => exact relayStep_preserves s _ (mqttCallback_relayStep J s m) h
    | relayPulse now => exact relayStep_preserves s _ (handleRelayPulse_relayStep s now) h

/-- Claim C10: in every state reached from the state after `setup()` by a sequence of calls
of `handleRFID`, `mqttCallback` and `handleRelayPulse`, whatever they read, the relay output
is energized (`LOW`) if and only if `pulseActive` is true; so with `pulseActive` false
(locked) the relay output is `HIGH`. -/
theorem relay_energized_iff_pulseActive (J : JsonLib) (pin : PinLevel) (calls : List Call) :
    ((runCalls J (setup (powerOn pin)) calls).relay1 = PinLevel.LOW ↔
      (runCalls J (setup (powerOn pin)) calls).pulseActive = true) ∧
    ((runCalls J (setup (powerOn pin)) calls).pulseActive = false →
      (runCalls J (setup (powerOn pin)) calls).relay1 = PinLevel.HIGH) := by
  have hinit : RelayMatchesPulse (setup (powerOn pin)) := by
    unfold RelayMatchesPulse
    constructor
    · intro hc; exact absurd hc (by simp [setup, updateRFIDStatus])
    · intro hc; exact absurd hc (by simp [setup, updateRFIDStatus, powerOn])
  have hinv := runCalls_preserves J (setup (powerOn pin)) calls hinit
  unfold RelayMatchesPulse at hinv
  refine ⟨hinv, fun hoff => ?_⟩
  cases hr : (runCalls J (setup (powerOn pin)) calls).relay1 with
  | HIGH => rfl
  | LOW =>
    have := hinv.1 hr
    rw [hoff] at this
    exact absurd this (by decide)

/-! ## Frames of the handlers -/

theorem publishDoorEvent_keeps (s : State) (c : Bool) (ts : Nat) (u e st : String) :
    KeepsLinkAndOta s (publishDoorEvent s c ts u e st) := by
  unfold KeepsLinkAndOta publishDoorEvent
  cases c <;> exact ⟨rfl, rfl, rfl⟩

theorem keeps_refl (s : State) : KeepsLinkAndOta s s := ⟨rfl, rfl, rfl⟩

theorem keeps_trans (s s1 s2 : State) (h1 : KeepsLinkAndOta s s1)
    (h2 : KeepsLinkAndOta s1 s2) : KeepsLinkAndOta s s2 :=
  ⟨h2.1.trans h1.1, h2.2.1.trans h1.2.1, h2.2.2.trans h1.2.2⟩

theorem handleRFID_keeps (s : State) (r : RfidInput) : KeepsLinkAndOta s (handleRFID s r) := by
  unfold handleRFID
  simp only []
  split
  · exact keeps_refl s
  · split
    · exact keeps_refl s
    · split
      · split
        · exact keeps_trans _ _ _ ⟨rfl, rfl, rfl⟩ (publishDoorEvent_keeps _ _ _ _ _ _)
        · exact keeps_trans _ _ _ ⟨rfl, rfl, rfl⟩ (publishDoorEvent_keeps _ _ _ _ _ _)
      · exact keeps_refl s

theorem mqttCallback_keeps (J : JsonLib) (s : State) (m : MqttInput) :
    KeepsLinkAndOta s (mqttCallback J s m) := by
  cases hparse : J.deserializeJson 256 (payloadMessage m.payload) with
  | none =>
    rw [mqttCallback_parse_error J s m hparse]
    exact ⟨rfl, rfl, rfl⟩
  | some doc =>
    by_cases ha : Addressed J doc
    · by_cases hu : J.getOrEmpty doc "command" = "unlock"
      · rw [mqttCallback_unlock J s m doc hparse ha hu]
        exact keeps_trans _ _ _ ⟨rfl, rfl, rfl⟩ (publishDoorEvent_keeps _ _ _ _ _ _)
      · by_cases hl : J.getOrEmpty doc "command" = "lock"
        · rw [mqttCallback_lock J s m doc hparse ha hl]
          exact keeps_trans _ _ _ ⟨rfl, rfl, rfl⟩ (publishDoorEvent_keeps _ _ _ _ _ _)
        · rw [mqttCallback_unknown_command J s m doc hparse hu hl]
          exact ⟨rfl, rfl, rfl⟩
    · rw [mqttCallback_not_addressed J s m doc hparse ha]
      exact ⟨rfl, rfl, rfl⟩

theorem handleRelayPulse_keeps (s : State) (now : Nat) :
    KeepsLinkAndOta s (handleRelayPulse s now) := by
  unfold handleRelayPulse
  split
  · exact ⟨rfl, rfl, rfl⟩
  · exact keeps_refl s

theorem connectMQTTNonBlocking_keeps (J : JsonLib) (s : State) (c : MqttConnInput) :
    KeepsLinkAndOta s (connectMQTTNonBlocking J s c) := by
  have hfold : ∀ (l : List MqttInput) (s0 : State),
      KeepsLinkAndOta s0 (l.foldl (mqttCallback J) s0) := by
    intro l
    induction l with
    | nil => intro s0; exact keeps_refl s0
    | cons m rest ih =>
      intro s0
      exact keeps_trans _ _ _ (mqttCallback_keeps J s0 m) (ih (mqttCallback J s0 m))
  unfold connectMQTTNonBlocking
  split
  · exact keeps_refl s
  · split
    · split
      · simp only []
        split <;> exact ⟨rfl, rfl, rfl⟩
      · exact keeps_refl s
    · exact hfold c.inbound s

theorem connectWiFiNonBlocking_failCount_step (s : State) (w : WifiInput) :
    (connectWiFiNonBlocking s w).failCount = s.failCount ∨
    ((connectWiFiNonBlocking s w).failCount = s.failCount + 1 ∧ s.failCount < 10 ∧
      w.statusConnected = false ∧
      (connectWiFiNonBlocking s w).wifiBegins = s.wifiBegins + 1) ∨
    ((connectWiFiNonBlocking s w).failCount = 0 ∧ w.statusConnected = true) := by
  unfold connectWiFiNonBlocking
  simp only []
  split
  · exact Or.inl rfl
  · cases hst : w.statusConnected
    · by_cases hlt : s.failCount < maxFailCount
      · right; left
        refine ⟨?_, hlt, rfl, ?_⟩ <;> simp [hlt]
      · left
        simp [hlt]
    · cases hw : s.wifiConnected
      · right; right
        simp
      · left
        simp

theorem otaUpdate_keeps (s : State) (f : String) (o : OtaInput) :
    (otaUpdate s f o).failCount = s.failCount ∧
    (otaUpdate s f o).heartbeats = s.heartbeats := by
  unfold otaUpdate
  simp only []
  split
  · exact ⟨rfl, rfl⟩
  · split
    · exact ⟨rfl, rfl⟩
    · split <;> split <;> (try split) <;> exact ⟨rfl, rfl⟩

theorem otaCheck_keeps (J : JsonLib) (s : State) (o : OtaInput) :
    (otaCheck J s o).state.failCount = s.failCount ∧
    (otaCheck J s o).state.heartbeats = s.heartbeats := by
  unfold otaCheck
  simp only []
  split
  · exact ⟨rfl, rfl⟩
  · split
    · exact ⟨rfl, rfl⟩
    · split
      · exact ⟨rfl, rfl⟩
      · split
        · exact ⟨rfl, rfl⟩
        · split <;> exact ⟨rfl, rfl⟩

theorem checkOTA_failCount (J : JsonLib) (s : State) (o : OtaInput) :
    (checkOTA J s o).failCount = s.failCount ∧ (checkOTA J s o).heartbeats = s.heartbeats := by
  have hck := otaCheck_keeps J s o
  unfold checkOTA
  cases h : otaCheck J s o with
  | returned s1 =>
    rw [h] at hck
    exact hck
  | updating s1 f =>
    rw [h] at hck
    have hup := otaUpdate_keeps s1 f o
    exact ⟨hup.1.trans hck.1, hup.2.trans hck.2⟩

theorem publishHeartbeat_failCount (s : State) (h : HeartbeatInput) :
    (publishHeartbeat s h).failCount = s.failCount := by
  unfold publishHeartbeat
  split <;> rfl

theorem publishHeartbeat_otaStatus (s : State) (h : HeartbeatInput) :
    (publishHeartbeat s h).otaStatus = s.otaStatus := by
  unfold publishHeartbeat
  split <;> rfl

theorem drawStatusIndicators_failCount (s : State) :
    (drawStatusIndicators s).failCount = s.failCount := by
  unfold drawStatusIndicators
  split <;> rfl

theorem schedStep_failCount (J : JsonLib) (s : State) (step : SchedStep) :
    (∃ w, step = SchedStep.wifi w) ∨ (SchedStep.run J s step).failCount = s.failCount := by
  cases step with
  | rfidDue now => exact Or.inr rfl
  | rfid r => exact Or.inr (handleRFID_keeps s r).1
  | heartbeatDue now => exact Or.inr rfl
  | heartbeat h => exact Or.inr (publishHeartbeat_failCount s h)
  | relayPulse now => exact Or.inr (handleRelayPulse_keeps s now).1
  | wifi w => exact Or.inl ⟨w, rfl⟩
  | mqttConnect c => exact Or.inr (connectMQTTNonBlocking_keeps J s c).1
  | callback m => exact Or.inr (mqttCallback_keeps J s m).1
  | ota o => exact Or.inr (checkOTA_failCount J s o).1
  | draw => exact Or.inr (drawStatusIndicators_failCount s)

theorem connectWiFiNonBlocking_range (s : State) (w : WifiInput) (h : CounterInRange s) :
    CounterInRange (connectWiFiNonBlocking s w) := by
  unfold CounterInRange at h ⊢
  rcases connectWiFiNonBlocking_failCount_step s w with h1 | ⟨h1, hlt, _, _⟩ | ⟨h1, _⟩
  · rw [h1]; exact h
  · rw [h1]; omega
  · rw [h1]; omega

theorem runSched_range (J : JsonLib) (s : State) (steps : List SchedStep)
    (h : CounterInRange s) : CounterInRange (runSched J s steps) := by
  induction steps generalizing s with
  | nil => exact h
  | cons step rest ih =>
    show CounterInRange (runSched J (SchedStep.run J s step) rest)
    apply ih
    rcases schedStep_failCount J s step with ⟨w, rfl⟩ | hsame
    · exact connectWiFiNonBlocking_range s w h
    · unfold CounterInRange at h ⊢
      rw [hsame]; exact h

theorem setup_range (pin : PinLevel) : CounterInRange (setup (powerOn pin)) := by
  unfold CounterInRange
  have h : (setup (powerOn pin)).failCount = 0 := rfl
  rw [h]
  exact ⟨le_refl 0, by decide⟩

/-! ## Failure counter -/

/-- Claim C11: in every state reached from the state after `setup()` by scheduler steps the
failure counter lies in `0..10`; and one call of `connectWiFiNonBlocking`, from any state,
leaves the counter unchanged, or raises it by exactly 1 (then the link was read as not
connected and `WiFi.begin` was called), or sets it to 0 (then the link was read as
connected); so whenever a call lowers the counter, it lowers it to 0 and read the link as
connected. -/
theorem failCount_in_range_and_moves (J : JsonLib) (pin : PinLevel) (steps : List SchedStep)
    (s : State) (w : WifiInput) :
    (0 ≤ (runSched J (setup (powerOn pin)) steps).failCount ∧
      (runSched J (setup (powerOn pin)) steps).failCount ≤ 10) ∧
    ((connectWiFiNonBlocking s w).failCount = s.failCount ∨
      ((connectWiFiNonBlocking s w).failCount = s.failCount + 1 ∧
        w.statusConnected = false ∧
        (connectWiFiNonBlocking s w).wifiBegins = s.wifiBegins + 1) ∨
      ((connectWiFiNonBlocking s w).failCount = 0 ∧ w.statusConnected = true)) ∧
    ((connectWiFiNonBlocking s w).failCount < s.failCount →
      (connectWiFiNonBlocking s w).failCount = 0 ∧ w.statusConnected = true) := by
  refine ⟨runSched_range J _ steps (setup_range pin), ?_, ?_⟩
  · rcases connectWiFiNonBlocking_failCount_step s w with h1 | ⟨h1, _, h2, h3⟩ | h1
    · exact Or.inl h1
    · exact Or.inr (Or.inl ⟨h1, h2, h3⟩)
    · exact Or.inr (Or.inr h1)
  · intro hlt
    rcases connectWiFiNonBlocking_failCount_step s w with h1 | ⟨h1, _, _, _⟩ | h1
    · rw [h1] at hlt; exact absurd hlt (lt_irrefl _)
    · rw [h1] at hlt; omega
    · exact h1

/-- Witness of C11: after ten failed attempts the counter is 10; the call that then reads
the link as connected lowers it, and lowers it to 0. -/
theorem failCount_in_range_and_moves_witness :
    exhausted.failCount = 10 ∧
    (connectWiFiNonBlocking exhausted { now := 121000, statusConnected := true }).failCount
      = 0 :=
  ⟨by decide,
   ((failCount_in_range_and_moves fieldsJson PinLevel.LOW [] exhausted
      { now := 121000, statusConnected := true }).2.2 (by decide)).1⟩

/-! ## Gate of the update check -/

/-- Claim C12: with `wifiConnected` false, and likewise with less than `otaInterval`
(10000 ms) elapsed since `lastOTACheck`, a call of `checkOTA` changes nothing: `otaStatus`
and `lastOTACheck` keep their values and no request is sent; so a call that changes
`otaStatus` was made with `wifiConnected` true. -/
theorem checkOTA_gated (J : JsonLib) (s : State) (o : OtaInput) :
    ((s.wifiConnected = false ∨ subUL o.millis1 s.lastOTACheck < otaInterval) →
      checkOTA J s o = s ∧
      (checkOTA J s o).otaStatus = s.otaStatus ∧
      (checkOTA J s o).lastOTACheck = s.lastOTACheck ∧
      (checkOTA J s o).httpGets = s.httpGets) ∧
    ((checkOTA J s o).otaStatus ≠ s.otaStatus →
      s.wifiConnected = true ∧ otaInterval ≤ subUL o.millis1 s.lastOTACheck) := by
  have hgate : (s.wifiConnected = false ∨ subUL o.millis1 s.lastOTACheck < otaInterval) →
      checkOTA J s o = s := by
    intro h
    unfold checkOTA otaCheck
    rcases h with h | h
    · simp [h]
    · cases hw : s.wifiConnected <;> simp [h]
  refine ⟨fun h => ?_, fun hchg => ?_⟩
  · rw [hgate h]
    exact ⟨rfl, rfl, rfl, rfl⟩
  · constructor
    · cases hw : s.wifiConnected
      · exact absurd (by rw [hgate (Or.inl hw)]) hchg
      · rfl
    · by_contra hlt
      exact hchg (by rw [hgate (Or.inr (Nat.not_le.1 hlt))])

/-- Witness of C12: right after `setup` the link is down and `checkOTA` changes nothing;
with the link up, a call 5000 ms after the last check changes nothing either. -/
theorem checkOTA_gated_witness :
    checkOTA fieldsJson afterSetup (manifestAnswer "1.0.15") = afterSetup ∧
    checkOTA fieldsJson linkUp
      { manifestAnswer "1.0.15" with millis1 := 5000, millis2 := 5000 } = linkUp :=
  ⟨((checkOTA_gated fieldsJson afterSetup (manifestAnswer "1.0.15")).1
      (Or.inl (by decide))).1,
   ((checkOTA_gated fieldsJson linkUp
      { manifestAnswer "1.0.15" with millis1 := 5000, millis2 := 5000 }).1
      (Or.inr (by decide))).1⟩

/-! ## Who writes the OTA state -/

/-- Counterexample to C13 as stated: the link, up at 1000 ms, is found down at 5000 ms, so
`wifiConnected` is false while `otaStatus` is `OTA_IDLE`; `drawStatusIndicators` then
changes `otaStatus` to `OTA_ERROR`. -/
theorem drawStatusIndicators_writes_otaStatus :
    linkDropped.wifiConnected = false ∧ linkDropped.otaStatus = OTAStatus.OTA_IDLE ∧
    (drawStatusIndicators linkDropped).otaStatus = OTAStatus.OTA_ERROR ∧
    (drawStatusIndicators linkDropped).otaStatus ≠ linkDropped.otaStatus := by
  decide

/-- Claim C13, amended: `publishHeartbeat` leaves `otaStatus` unchanged in every state;
`drawStatusIndicators` leaves it unchanged in every state with `wifiConnected` true, and
sets it to `OTA_ERROR` in every state with `wifiConnected` false. -/
theorem otaStatus_frame_of_telemetry_and_display (s : State) (h : HeartbeatInput) :
    (publishHeartbeat s h).otaStatus = s.otaStatus ∧
    (s.wifiConnected = true → (drawStatusIndicators s).otaStatus = s.otaStatus) ∧
    (s.wifiConnected = false → (drawStatusIndicators s).otaStatus = OTAStatus.OTA_ERROR) := by
  refine ⟨publishHeartbeat_otaStatus s h, fun hw => ?_, fun hw => ?_⟩
  · simp [drawStatusIndicators, hw]
  · simp [drawStatusIndicators, hw]

/-- Witness of the amended C13: with the link up the display leaves `OTA_IDLE` alone, with
the link dropped it writes `OTA_ERROR`; the heartbeat changes nothing either way. -/
theorem otaStatus_frame_of_telemetry_and_display_witness :
    (publishHeartbeat linkDropped heartbeatCall).otaStatus = OTAStatus.OTA_IDLE ∧
    (drawStatusIndicators linkUp).otaStatus = linkUp.otaStatus ∧
    (drawStatusIndicators linkDropped).otaStatus = OTAStatus.OTA_ERROR :=
  ⟨(otaStatus_frame_of_telemetry_and_display linkDropped heartbeatCall).1,
   (otaStatus_frame_of_telemetry_and_display linkUp heartbeatCall).2.1 (by decide),
   (otaStatus_frame_of_telemetry_and_display linkDropped heartbeatCall).2.2 (by decide)⟩

/-! ## Longest enforced wait -/

theorem wifiInterval_le_of_range (s : State) (h : CounterInRange s) :
    wifiInterval s.failCount ≤ 21000 := by
  unfold CounterInRange at h
  obtain ⟨n, hn⟩ := Int.eq_ofNat_of_zero_le h.1
  rw [hn, wifiInterval_nat]
  omega

theorem otaUpdate_staged (s : State) (fwFile : String) (o : OtaInput)
    (hcode : o.fwCode = 200) (hbegin : o.updateBegin = true) :
    (otaUpdate s fwFile o).otaStatus
      = (if o.updateEnd && o.isFinished then OTAStatus.OTA_IDLE else OTAStatus.OTA_ERROR) ∧
    (otaUpdate s fwFile o).restarted = (s.restarted || (o.updateEnd && o.isFinished)) := by
  unfold otaUpdate
  simp only []
  split
  · simp_all
  · split
    · simp_all
    · split <;> split <;> (try split) <;> simp_all

/-- Claim C15: in the update phase, once the firmware fetch returned 200 and `Update.begin`
succeeded, the final `otaStatus` and whether the device restarts are fixed by the results of
`Update.end` and `Update.isFinished`: `OTA_IDLE` with a restart when both succeed,
`OTA_ERROR` without one otherwise; two runs that differ only in the written byte count end
with the same `otaStatus` and the same restart flag, in the update phase and in `checkOTA`
as a whole. -/
theorem ota_outcome_ignores_written (J : JsonLib) (s : State) (fwFile : String)
    (o : OtaInput) (n : Nat)
    (hcode : o.fwCode = 200) (hbegin : o.updateBegin = true) :
    (otaUpdate s fwFile { o with written := n }).otaStatus
      = (otaUpdate s fwFile o).otaStatus ∧
    (otaUpdate s fwFile { o with written := n }).restarted
      = (otaUpdate s fwFile o).restarted ∧
    (otaUpdate s fwFile o).otaStatus
      = (if o.updateEnd && o.isFinished then OTAStatus.OTA_IDLE else OTAStatus.OTA_ERROR) ∧
    (otaUpdate s fwFile o).restarted = (s.restarted || (o.updateEnd && o.isFinished)) ∧
    (checkOTA J s { o with written := n }).otaStatus = (checkOTA J s o).otaStatus ∧
    (checkOTA J s { o with written := n }).restarted = (checkOTA J s o).restarted := by
  have h1 := otaUpdate_staged s fwFile o hcode hbegin
  have h2 := otaUpdate_staged s fwFile { o with written := n } hcode hbegin
  have hck : otaCheck J s { o with written := n } = otaCheck J s o := rfl
  refine ⟨h2.1.trans h1.1.symm, h2.2.trans h1.2.symm, h1.1, h1.2, ?_, ?_⟩
  · unfold checkOTA
    rw [hck]
    cases otaCheck J s o with
    | returned s1 => rfl
    | updating s1 f =>
      exact (otaUpdate_staged s1 f { o with written := n } hcode hbegin).1.trans
        (otaUpdate_staged s1 f o hcode hbegin).1.symm
  · unfold checkOTA
    rw [hck]
    cases otaCheck J s o with
    | returned s1 => rfl
    | updating s1 f =>
      exact (otaUpdate_staged s1 f { o with written := n } hcode hbegin).2.trans
        (otaUpdate_staged s1 f o hcode hbegin).2.symm

/-- Witness of C15: 1000 bytes declared; with 1000 bytes written and with 999 bytes written
the update ends alike, with `OTA_IDLE` and a restart. -/
theorem ota_outcome_ignores_written_witness :
    (checkOTA fieldsJson linkUp (fullUpdate 999)).otaStatus
      = (checkOTA fieldsJson linkUp (fullUpdate 1000)).otaStatus ∧
    (checkOTA fieldsJson linkUp (fullUpdate 999)).restarted
      = (checkOTA fieldsJson linkUp (fullUpdate 1000)).restarted ∧
    (checkOTA fieldsJson linkUp (fullUpdate 1000)).restarted = true ∧
    (checkOTA fieldsJson linkUp (fullUpdate 999)).serial
      ≠ (checkOTA fieldsJson linkUp (fullUpdate 1000)).serial :=
  have h := ota_outcome_ignores_written fieldsJson linkUp "fw.bin" (fullUpdate 1000) 999
    rfl rfl
  ⟨h.2.2.2.2.1, h.2.2.2.2.2, by decide, by decide⟩

/-! ## OTA state between scheduler steps -/

theorem otaName_settled (st : OTAStatus)
    (h : st = OTAStatus.OTA_IDLE ∨ st = OTAStatus.OTA_ERROR) :
    otaName st = "idle" ∨ otaName st = "error" := by
  rcases h with rfl | rfl
  · exact Or.inl rfl
  · exact Or.inr rfl

theorem settled_of_keeps (s s1 : State) (hk : KeepsLinkAndOta s s1)
    (h : OtaSettled s ∧ HeartbeatsSettled s) : OtaSettled s1 ∧ HeartbeatsSettled s1 := by
  unfold OtaSettled HeartbeatsSettled at h ⊢
  rw [hk.2.1, hk.2.2]
  exact h

theorem publishHeartbeat_settled (s : State) (h : HeartbeatInput)
    (hs : OtaSettled s ∧ HeartbeatsSettled s) :
    OtaSettled (publishHeartbeat s h) ∧ HeartbeatsSettled (publishHeartbeat s h) := by
  refine ⟨?_, ?_⟩
  · unfold OtaSettled
    rw [publishHeartbeat_otaStatus]
    exact hs.1
  · unfold HeartbeatsSettled publishHeartbeat
    split
    · exact hs.2
    · intro hb hmem
      rcases List.mem_append.1 hmem with hold | hnew
      · exact hs.2 hb hold
      · rw [List.mem_singleton.1 hnew]
        exact otaName_settled s.otaStatus hs.1

theorem connectWiFiNonBlocking_settled (s : State) (w : WifiInput)
    (hs : OtaSettled s ∧ HeartbeatsSettled s) :
    OtaSettled (connectWiFiNonBlocking s w) ∧
    HeartbeatsSettled (connectWiFiNonBlocking s w) := by
  unfold OtaSettled HeartbeatsSettled at hs ⊢
  unfold connectWiFiNonBlocking
  simp only []
  split
  · exact hs
  · split
    · split
      · exact hs
      · exact hs
    · split
      · exact ⟨Or.inl rfl, hs.2⟩
      · exact hs

theorem otaUpdate_settled (s : State) (f : String) (o : OtaInput) :
    OtaSettled (otaUpdate s f o) := by
  unfold OtaSettled otaUpdate
  simp only []
  split
  · exact Or.inr rfl
  · split
    · exact Or.inr rfl
    · split <;> split <;> (try split) <;> first | exact Or.inl rfl | exact Or.inr rfl

theorem otaCheck_settled (J : JsonLib) (s : State) (o : OtaInput) (hs : OtaSettled s)
    (s1 : State) (h : otaCheck J s o = CheckOutcome.returned s1) : OtaSettled s1 := by
  unfold otaCheck at h
  simp only [] at h
  split at h
  · cases h; exact hs
  · split at h
    · cases h; exact hs
    · split at h
      · cases h; exact Or.inr rfl
      · split at h
        · cases h; exact Or.inr rfl
        · split at h
          · cases h; exact Or.inl rfl
          · cases h

theorem checkOTA_settled (J : JsonLib) (s : State) (o : OtaInput)
    (hs : OtaSettled s ∧ HeartbeatsSettled s) :
    OtaSettled (checkOTA J s o) ∧ HeartbeatsSettled (checkOTA J s o) := by
  refine ⟨?_, ?_⟩
  · unfold checkOTA
    cases h : otaCheck J s o with
    | returned s1 => exact otaCheck_settled J s o hs.1 s1 h
    | updating s1 f => exact otaUpdate_settled s1 f o
  · unfold HeartbeatsSettled
    rw [(checkOTA_failCount J s o).2]
    exact hs.2

theorem drawStatusIndicators_settled (s : State)
    (hs : OtaSettled s ∧ HeartbeatsSettled s) :
    OtaSettled (drawStatusIndicators s) ∧ HeartbeatsSettled (drawStatusIndicators s) := by
  unfold OtaSettled HeartbeatsSettled at hs ⊢
  unfold drawStatusIndicators
  split
  · exact ⟨Or.inr rfl, hs.2⟩
  · exact hs

theorem schedStep_settled (J : JsonLib) (s : State) (step : SchedStep)
    (hs : OtaSettled s ∧ HeartbeatsSettled s) :
    OtaSettled (SchedStep.run J s step) ∧ HeartbeatsSettled (SchedStep.run J s step) := by
  cases step with
  | rfidDue now => exact hs
  | rfid r => exact settled_of_keeps s _ (handleRFID_keeps s r) hs
  | heartbeatDue now => exact hs
  | heartbeat h => exact publishHeartbeat_settled s h hs
  | relayPulse now => exact settled_of_keeps s _ (handleRelayPulse_keeps s now) hs
  | wifi w => exact connectWiFiNonBlocking_settled s w hs
  | mqttConnect c => exact settled_of_keeps s _ (connectMQTTNonBlocking_keeps J s c) hs
  | callback m => exact settled_of_keeps s _ (mqttCallback_keeps J s m) hs
  | ota o => exact checkOTA_settled J s o hs
  | draw => exact drawStatusIndicators_settled s hs

theorem runSched_settled (J : JsonLib) (s : State) (steps : List SchedStep)
    (hs : OtaSettled s ∧ HeartbeatsSettled s) :
    OtaSettled (runSched J s steps) ∧ HeartbeatsSettled (runSched J s steps) := by
  induction steps generalizing s with
  | nil => exact hs
  | cons step rest ih => exact ih (SchedStep.run J s step) (schedStep_settled J s step hs)

theorem loop_settled (J : JsonLib) (s : State) (i : LoopInput)
    (hs : OtaSettled s ∧ HeartbeatsSettled s) :
    OtaSettled (loop J s i) ∧ HeartbeatsSettled (loop J s i) := by
  have h1 : ∀ s0 : State, OtaSettled s0 ∧ HeartbeatsSettled s0 →
      (OtaSettled (if subUL i.now s0.lastRFIDCheck ≥ rfidInterval then
          handleRFID { s0 with lastRFIDCheck := i.now } i.rfid else s0) ∧
        HeartbeatsSettled (if subUL i.now s0.lastRFIDCheck ≥ rfidInterval then
          handleRFID { s0 with lastRFIDCheck := i.now } i.rfid else s0)) := by
    intro s0 h0
    split
    · exact settled_of_keeps _ _ (handleRFID_keeps _ i.rfid) h0
    · exact h0
  have h2 : ∀ s0 : State, OtaSettled s0 ∧ HeartbeatsSettled s0 →
      (OtaSettled (if subUL i.now s0.lastHeartbeat ≥ heartbeatInterval then
          publishHeartbeat { s0 with lastHeartbeat := i.now } i.heartbeat else s0) ∧
        HeartbeatsSettled (if subUL i.now s0.lastHeartbeat ≥ heartbeatInterval then
          publishHeartbeat { s0 with lastHeartbeat := i.now } i.heartbeat else s0)) := by
    intro s0 h0
    split
    · exact publishHeartbeat_settled _ i.heartbeat h0
    · exact h0
  have h6 := checkOTA_settled J _ i.ota
    (settled_of_keeps _ _ (connectMQTTNonBlocking_keeps J _ i.mqtt)
      (connectWiFiNonBlocking_settled _ i.wifi
        (settled_of_keeps _ _ (handleRelayPulse_keeps _ i.pulseNow) (h2 _ (h1 s hs)))))
  have hlast : ∀ s6 : State, OtaSettled s6 ∧ HeartbeatsSettled s6 →
      (OtaSettled (if s6.restarted then s6 else drawStatusIndicators s6) ∧
        HeartbeatsSettled (if s6.restarted then s6 else drawStatusIndicators s6)) := by
    intro s6 h
    split
    · exact h
    · exact drawStatusIndicators_settled _ h
  exact hlast _ h6

theorem runLoop_settled (J : JsonLib) (s : State) (passes : List LoopInput)
    (hs : OtaSettled s ∧ HeartbeatsSettled s) :
    OtaSettled (runLoop J s passes) ∧ HeartbeatsSettled (runLoop J s passes) := by
  induction passes generalizing s with
  | nil => exact hs
  | cons i rest ih => exact ih (loop J s i) (loop_settled J s i hs)

theorem setup_settled (pin : PinLevel) :
    OtaSettled (setup (powerOn pin)) ∧ HeartbeatsSettled (setup (powerOn pin)) := by
  refine ⟨Or.inr rfl, ?_⟩
  intro hb hmem
  exact absurd hmem (List.not_mem_nil hb)

/-- Claim C16: in every state reached from the state after `setup()` by scheduler steps
(each a function called from `loop` that has returned, or a delivery to the callback), and
likewise after any number of whole passes of `loop`, `otaStatus` is `OTA_IDLE` or
`OTA_ERROR`, never `OTA_CHECKING` or `OTA_UPDATING`; so a heartbeat built there, and every
heartbeat published so far, names the OTA state "idle" or "error", never "checking" or
"updating". -/
theorem otaStatus_settled_between_steps (J : JsonLib) (pin : PinLevel)
    (steps : List SchedStep) (passes : List LoopInput) (ts : Nat) :
    (OtaSettled (runSched J (setup (powerOn pin)) steps) ∧
      (runSched J (setup (powerOn pin)) steps).otaStatus ≠ OTAStatus.OTA_CHECKING ∧
      (runSched J (setup (powerOn pin)) steps).otaStatus ≠ OTAStatus.OTA_UPDATING) ∧
    (((heartbeatDoc (runSched J (setup (powerOn pin)) steps) ts).ota = "idle" ∨
       (heartbeatDoc (runSched J (setup (powerOn pin)) steps) ts).ota = "error") ∧
      (heartbeatDoc (runSched J (setup (powerOn pin)) steps) ts).ota ≠ "checking" ∧
      (heartbeatDoc (runSched J (setup (powerOn pin)) steps) ts).ota ≠ "updating") ∧
    (∀ hb ∈ (runSched J (setup (powerOn pin)) steps).heartbeats,
      (hb.ota = "idle" ∨ hb.ota = "error") ∧ hb.ota ≠ "checking" ∧ hb.ota ≠ "updating") ∧
    OtaSettled (runLoop J (setup (powerOn pin)) passes) ∧
    (∀ hb ∈ (runLoop J (setup (powerOn pin)) passes).heartbeats,
      (hb.ota = "idle" ∨ hb.ota = "error") ∧ hb.ota ≠ "checking" ∧ hb.ota ≠ "updating") := by
  have hname : ∀ x : String, (x = "idle" ∨ x = "error") →
      (x = "idle" ∨ x = "error") ∧ x ≠ "checking" ∧ x ≠ "updating" := by
    intro x hx
    refine ⟨hx, ?_, ?_⟩ <;> rcases hx with rfl | rfl <;> decide
  have hsched := runSched_settled J _ steps (setup_settled pin)
  have hloop := runLoop_settled J _ passes (setup_settled pin)
  refine ⟨⟨hsched.1, ?_, ?_⟩, ?_, ?_, hloop.1, ?_⟩
  · rcases hsched.1 with h | h <;> rw [h] <;> decide
  · rcases hsched.1 with h | h <;> rw [h] <;> decide
  · exact hname _ (otaName_settled _ hsched.1)
  · intro hb hmem
    exact hname _ (hsched.2 hb hmem)
  · intro hb hmem
    exact hname _ (hloop.2 hb hmem)

/-- Witness of C16: one full pass of `loop` after the link came up publishes one heartbeat,
naming the OTA state "idle". -/
theorem otaStatus_settled_between_steps_witness :
    (runLoop fieldsJson linkUp [firstPass]).heartbeats.length = 1 ∧
    OtaSettled (runLoop fieldsJson afterSetup [firstPass]) ∧
    OtaSettled (runSched fieldsJson afterSetup
      [SchedStep.wifi { now := 1000, statusConnected := true },
       SchedStep.ota (manifestAnswer "1.0.15")]) :=
  ⟨by decide,
   (otaStatus_settled_between_steps fieldsJson PinLevel.LOW [] [firstPass] 0).2.2.2.1,
   (otaStatus_settled_between_steps fieldsJson PinLevel.LOW
      [SchedStep.wifi { now := 1000, statusConnected := true },
       SchedStep.ota (manifestAnswer "1.0.15")] [] 0).1.1⟩

/-! ## Clock wrap-around -/

theorem subUL_add (start d : Nat) (hd : d < UL) : subUL ((start + d) % UL) start = d := by
  unfold subUL UL at *
  omega

/-- Claim C17: with the clock and `pulseStartTime` taken as 32-bit unsigned values, for
every start value and every true elapsed time `d < 2^32`, the difference computed from the
clock reading `(start + d) mod 2^32` is `d`, and a call of `handleRelayPulse` at that reading
on an active pulse ends the pulse (clears `pulseActive`, writes `HIGH`) if and only if
`d >= 100`. -/
theorem handleRelayPulse_across_wrap (st : State) (d : Nat)
    (hactive : st.pulseActive = true) (hd : d < UL) :
    subUL ((st.pulseStartTime + d) % UL) st.pulseStartTime = d ∧
    ((handleRelayPulse st ((st.pulseStartTime + d) % UL)).pulseActive = false ↔
      pulseDuration ≤ d) ∧
    (pulseDuration ≤ d →
      (handleRelayPulse st ((st.pulseStartTime + d) % UL)).relay1 = PinLevel.HIGH) ∧
    (d < pulseDuration →
      handleRelayPulse st ((st.pulseStartTime + d) % UL) = st) := by
  have hsub := subUL_add st.pulseStartTime d hd
  refine ⟨hsub, ⟨fun hoff => ?_, fun hge => ?_⟩, fun hge => ?_, fun hlt => ?_⟩
  · by_contra hlt
    have hrun := handleRelayPulse_running st ((st.pulseStartTime + d) % UL)
      (by rw [hsub]; exact Nat.not_le.1 hlt)
    rw [hrun, hactive] at hoff
    exact absurd hoff (by decide)
  · rw [handleRelayPulse_expired st _ hactive (by rw [hsub]; exact hge)]
  · rw [handleRelayPulse_expired st _ hactive (by rw [hsub]; exact hge)]
  · exact handleRelayPulse_running st _ (by rw [hsub]; exact hlt)

/-- Witness of C17: a pulse started 50 ms before the clock wraps is still running when the
clock reads 48 (98 ms later) and is ended when it reads 50 (100 ms later). -/
theorem handleRelayPulse_across_wrap_witness :
    (4294967246 + 100) % UL = 50 ∧
    handleRelayPulse pulseBeforeWrap ((pulseBeforeWrap.pulseStartTime + 98) % UL)
      = pulseBeforeWrap ∧
    (handleRelayPulse pulseBeforeWrap
      ((pulseBeforeWrap.pulseStartTime + 100) % UL)).pulseActive = false :=
  ⟨by decide,
   (handleRelayPulse_across_wrap pulseBeforeWrap 98 rfl (by decide)).2.2.2 (by decide),
   (handleRelayPulse_across_wrap pulseBeforeWrap 100 rfl (by decide)).2.1.2 (by decide)⟩

end Lokify
